import Mathlib

/-!
Verification development for the SmartLameParameters elastic-constant engine.

The engine (src/src/calculations.ts and validators.ts) is shallowly embedded
over the real numbers: every numeric value of the TypeScript code becomes a
real number, `throw new Error(msg)` becomes `Except.error msg`, and the
optional fields of the `MaterialParameters` interface become `Option` fields.
The human-readable message strings of the source carry interpolated, formatted
numbers; those formatted numbers are abstracted away and each message is kept
as its fixed leading text, which is all the stated properties depend on.
-/

namespace SmartLame

noncomputable section

/-- Tolerance for numerical comparisons (`const EPSILON = 1e-12`). -/
def EPSILON : ℝ := 1 / 10 ^ 12

/-- The `MaterialParameters` interface: six optional numeric fields.
The extra `G` field models the structural widening
`input as MaterialParameters with an optional G` used by the resolver to
accept a `G`-aliased shear modulus. -/
structure MaterialParameters where
  lambda : Option ℝ := none
  mu : Option ℝ := none
  E : Option ℝ := none
  K : Option ℝ := none
  nu : Option ℝ := none
  rho : Option ℝ := none
  G : Option ℝ := none

/-- The `CalculationResult` interface. -/
structure CalculationResult where
  parameters : MaterialParameters
  derivations : List String
  warnings : List String

/-! ## Formula library (one function per source conversion function)

Functions whose source checks a denominator against `EPSILON` and throws
return `Except String Real`; the source functions with no guard return a
plain real number. -/

/-- E = mu(3 lambda + 2 mu) / (lambda + mu), guard lambda + mu. -/
def calculateE_from_lambda_mu (lambda mu : ℝ) : Except String ℝ :=
  if |lambda + mu| < EPSILON then .error "Division by zero: lambda + mu = 0"
  else .ok ((mu * (3 * lambda + 2 * mu)) / (lambda + mu))

/-- nu = lambda / (2(lambda + mu)), guard 2(lambda + mu). -/
def calculateNu_from_lambda_mu (lambda mu : ℝ) : Except String ℝ :=
  if |2 * (lambda + mu)| < EPSILON then .error "Division by zero: 2(lambda + mu) = 0"
  else .ok (lambda / (2 * (lambda + mu)))

/-- K = lambda + (2/3) mu, no guard. -/
def calculateK_from_lambda_mu (lambda mu : ℝ) : ℝ :=
  lambda + (2 / 3) * mu

/-- mu = E / (2(1 + nu)), guard 2(1 + nu). -/
def calculateMu_from_E_nu (E nu : ℝ) : Except String ℝ :=
  if |2 * (1 + nu)| < EPSILON then .error "Division by zero: 2(1 + nu) = 0"
  else .ok (E / (2 * (1 + nu)))

/-- lambda = E nu / ((1 + nu)(1 - 2 nu)), guard (1 + nu)(1 - 2 nu). -/
def calculateLambda_from_E_nu (E nu : ℝ) : Except String ℝ :=
  if |(1 + nu) * (1 - 2 * nu)| < EPSILON then .error "Division by zero: (1 + nu)(1 - 2 nu) = 0"
  else .ok ((E * nu) / ((1 + nu) * (1 - 2 * nu)))

/-- K = E / (3(1 - 2 nu)), guard 3(1 - 2 nu). -/
def calculateK_from_E_nu (E nu : ℝ) : Except String ℝ :=
  if |3 * (1 - 2 * nu)| < EPSILON then .error "Division by zero: 3(1 - 2 nu) = 0"
  else .ok (E / (3 * (1 - 2 * nu)))

/-- E = 2 mu (1 + nu), no guard. -/
def calculateE_from_mu_nu (mu nu : ℝ) : ℝ :=
  2 * mu * (1 + nu)

/-- lambda = 2 mu nu / (1 - 2 nu), guard 1 - 2 nu. -/
def calculateLambda_from_mu_nu (mu nu : ℝ) : Except String ℝ :=
  if |1 - 2 * nu| < EPSILON then .error "Division by zero: 1 - 2 nu = 0"
  else .ok ((2 * mu * nu) / (1 - 2 * nu))

/-- K = 2 mu (1 + nu) / (3(1 - 2 nu)), guard 3(1 - 2 nu). -/
def calculateK_from_mu_nu (mu nu : ℝ) : Except String ℝ :=
  if |3 * (1 - 2 * nu)| < EPSILON then .error "Division by zero: 3(1 - 2 nu) = 0"
  else .ok ((2 * mu * (1 + nu)) / (3 * (1 - 2 * nu)))

/-- E = 3K(1 - 2 nu), no guard. -/
def calculateE_from_K_nu (K nu : ℝ) : ℝ :=
  3 * K * (1 - 2 * nu)

/-- mu = 3K(1 - 2 nu) / (2(1 + nu)), guard 2(1 + nu). -/
def calculateMu_from_K_nu (K nu : ℝ) : Except String ℝ :=
  if |2 * (1 + nu)| < EPSILON then .error "Division by zero: 2(1 + nu) = 0"
  else .ok ((3 * K * (1 - 2 * nu)) / (2 * (1 + nu)))

/-- lambda = 3 K nu / (1 + nu), guard 1 + nu. -/
def calculateLambda_from_K_nu (K nu : ℝ) : Except String ℝ :=
  if |1 + nu| < EPSILON then .error "Division by zero: 1 + nu = 0"
  else .ok ((3 * K * nu) / (1 + nu))

/-- E = 9 K mu / (3K + mu), guard 3K + mu. -/
def calculateE_from_K_mu (K mu : ℝ) : Except String ℝ :=
  if |3 * K + mu| < EPSILON then .error "Division by zero: 3K + mu = 0"
  else .ok ((9 * K * mu) / (3 * K + mu))

/-- nu = (3K - 2 mu) / (6K + 2 mu), guard 6K + 2 mu. -/
def calculateNu_from_K_mu (K mu : ℝ) : Except String ℝ :=
  if |6 * K + 2 * mu| < EPSILON then .error "Division by zero: 6K + 2 mu = 0"
  else .ok ((3 * K - 2 * mu) / (6 * K + 2 * mu))

/-- lambda = K - (2/3) mu, no guard. -/
def calculateLambda_from_K_mu (K mu : ℝ) : ℝ :=
  K - (2 / 3) * mu

/-- nu = E/(2 mu) - 1, guard 2 mu. -/
def calculateNu_from_E_mu (E mu : ℝ) : Except String ℝ :=
  if |2 * mu| < EPSILON then .error "Division by zero: 2 mu = 0"
  else .ok (E / (2 * mu) - 1)

/-- K = E mu / (3(3 mu - E)), guard 3(3 mu - E). -/
def calculateK_from_E_mu (E mu : ℝ) : Except String ℝ :=
  if |3 * (3 * mu - E)| < EPSILON then .error "Division by zero: 3(3 mu - E) = 0"
  else .ok ((E * mu) / (3 * (3 * mu - E)))

/-- lambda = mu(E - 2 mu) / (3 mu - E), guard 3 mu - E. -/
def calculateLambda_from_E_mu (E mu : ℝ) : Except String ℝ :=
  if |3 * mu - E| < EPSILON then .error "Division by zero: 3 mu - E = 0"
  else .ok ((mu * (E - 2 * mu)) / (3 * mu - E))

/-- mu = 3 K E / (9K - E), guard 9K - E. -/
def calculateMu_from_E_K (E K : ℝ) : Except String ℝ :=
  if |9 * K - E| < EPSILON then .error "Division by zero: 9K - E = 0"
  else .ok ((3 * K * E) / (9 * K - E))

/-- nu = (3K - E) / (6K), guard 6K. -/
def calculateNu_from_E_K (E K : ℝ) : Except String ℝ :=
  if |6 * K| < EPSILON then .error "Division by zero: 6K = 0"
  else .ok ((3 * K - E) / (6 * K))

/-- lambda = 3K(3K - E) / (9K - E), guard 9K - E. -/
def calculateLambda_from_E_K (E K : ℝ) : Except String ℝ :=
  if |9 * K - E| < EPSILON then .error "Division by zero: 9K - E = 0"
  else .ok ((3 * K * (3 * K - E)) / (9 * K - E))

/-- E = lambda(1 + nu)(1 - 2 nu) / nu, guard nu. -/
def calculateE_from_lambda_nu (lambda nu : ℝ) : Except String ℝ :=
  if |nu| < EPSILON then .error "Division by zero: nu = 0"
  else .ok ((lambda * (1 + nu) * (1 - 2 * nu)) / nu)

/-- mu = lambda(1 - 2 nu) / (2 nu), guard 2 nu. -/
def calculateMu_from_lambda_nu (lambda nu : ℝ) : Except String ℝ :=
  if |2 * nu| < EPSILON then .error "Division by zero: 2 nu = 0"
  else .ok ((lambda * (1 - 2 * nu)) / (2 * nu))

/-- K = lambda(1 + nu) / (3 nu), guard 3 nu. -/
def calculateK_from_lambda_nu (lambda nu : ℝ) : Except String ℝ :=
  if |3 * nu| < EPSILON then .error "Division by zero: 3 nu = 0"
  else .ok ((lambda * (1 + nu)) / (3 * nu))

/-- E = 9K(K - lambda) / (3K - lambda), guard 3K - lambda. -/
def calculateE_from_lambda_K (lambda K : ℝ) : Except String ℝ :=
  if |3 * K - lambda| < EPSILON then .error "Division by zero: 3K - lambda = 0"
  else .ok ((9 * K * (K - lambda)) / (3 * K - lambda))

/-- mu = (3/2)(K - lambda), no guard. -/
def calculateMu_from_lambda_K (lambda K : ℝ) : ℝ :=
  (3 / 2) * (K - lambda)

/-- nu = lambda / (3K - lambda), guard 3K - lambda. -/
def calculateNu_from_lambda_K (lambda K : ℝ) : Except String ℝ :=
  if |3 * K - lambda| < EPSILON then .error "Division by zero: 3K - lambda = 0"
  else .ok (lambda / (3 * K - lambda))

/-! ## The resolver (`calculateAllParameters`)

The body of each `if`-branch of the source is a sequence of up to three
guarded assignments, each of the shape
`if result.x === undefined then result.x := formula(...); derivations.push(...)`.
A branch is embedded as a list of `Step`s executed by `runSteps`; a step whose
computation throws aborts the remaining steps and surfaces the error (the
source `try` block), keeping the fields already assigned. -/

/-- The five elastic parameter fields the resolver derives. -/
inductive Param where
  | lam
  | mu
  | E
  | K
  | nu
deriving DecidableEq

/-- Read one of the five elastic fields. -/
def getP : Param → MaterialParameters → Option ℝ
  | .lam, r => r.lambda
  | .mu, r => r.mu
  | .E, r => r.E
  | .K, r => r.K
  | .nu, r => r.nu

/-- Assign one of the five elastic fields. -/
def setP : Param → ℝ → MaterialParameters → MaterialParameters
  | .lam, v, r => { r with lambda := some v }
  | .mu, v, r => { r with mu := some v }
  | .E, v, r => { r with E := some v }
  | .K, v, r => { r with K := some v }
  | .nu, v, r => { r with nu := some v }

/-- One guarded assignment of a resolver branch: the target field, the
computation over the current record, and the derivation string pushed on
success. -/
structure Step where
  target : Param
  comp : MaterialParameters → Except String ℝ
  deriv : String

/-- Execute the guarded assignments of a branch in order: a step whose target
field is already set is skipped; a failing computation stops the branch and
reports the error, keeping fields assigned by earlier steps. -/
def runSteps : List Step → MaterialParameters → List String →
    MaterialParameters × List String × Option String
  | [], r, ds => (r, ds, none)
  | s :: rest, r, ds =>
    match getP s.target r with
    | some _ => runSteps rest r ds
    | none =>
      match s.comp r with
      | .error e => (r, ds, some e)
      | .ok v => runSteps rest (setP s.target v r) (ds ++ [s.deriv])

/-- Branch body for the (lambda, mu) pair. -/
def steps_lambda_mu : List Step :=
  [⟨.E, fun r => calculateE_from_lambda_mu (r.lambda.getD 0) (r.mu.getD 0),
    "E = mu(3 lambda + 2 mu) / (lambda + mu)"⟩,
   ⟨.nu, fun r => calculateNu_from_lambda_mu (r.lambda.getD 0) (r.mu.getD 0),
    "nu = lambda / (2(lambda + mu))"⟩,
   ⟨.K, fun r => .ok (calculateK_from_lambda_mu (r.lambda.getD 0) (r.mu.getD 0)),
    "K = lambda + (2/3) mu"⟩]

/-- Branch body for the (E, nu) pair. -/
def steps_E_nu : List Step :=
  [⟨.mu, fun r => calculateMu_from_E_nu (r.E.getD 0) (r.nu.getD 0),
    "mu = E / (2(1 + nu))"⟩,
   ⟨.lam, fun r => calculateLambda_from_E_nu (r.E.getD 0) (r.nu.getD 0),
    "lambda = E nu / ((1 + nu)(1 - 2 nu))"⟩,
   ⟨.K, fun r => calculateK_from_E_nu (r.E.getD 0) (r.nu.getD 0),
    "K = E / (3(1 - 2 nu))"⟩]

/-- Branch body for the (mu, nu) pair. -/
def steps_mu_nu : List Step :=
  [⟨.E, fun r => .ok (calculateE_from_mu_nu (r.mu.getD 0) (r.nu.getD 0)),
    "E = 2 mu (1 + nu)"⟩,
   ⟨.lam, fun r => calculateLambda_from_mu_nu (r.mu.getD 0) (r.nu.getD 0),
    "lambda = 2 mu nu / (1 - 2 nu)"⟩,
   ⟨.K, fun r => calculateK_from_mu_nu (r.mu.getD 0) (r.nu.getD 0),
    "K = 2 mu (1 + nu) / (3(1 - 2 nu))"⟩]

/-- Branch body for the (K, nu) pair. -/
def steps_K_nu : List Step :=
  [⟨.E, fun r => .ok (calculateE_from_K_nu (r.K.getD 0) (r.nu.getD 0)),
    "E = 3K(1 - 2 nu)"⟩,
   ⟨.mu, fun r => calculateMu_from_K_nu (r.K.getD 0) (r.nu.getD 0),
    "mu = 3K(1 - 2 nu) / (2(1 + nu))"⟩,
   ⟨.lam, fun r => calculateLambda_from_K_nu (r.K.getD 0) (r.nu.getD 0),
    "lambda = 3 K nu / (1 + nu)"⟩]

/-- Branch body for the (K, mu) pair. -/
def steps_K_mu : List Step :=
  [⟨.E, fun r => calculateE_from_K_mu (r.K.getD 0) (r.mu.getD 0),
    "E = 9 K mu / (3K + mu)"⟩,
   ⟨.nu, fun r => calculateNu_from_K_mu (r.K.getD 0) (r.mu.getD 0),
    "nu = (3K - 2 mu) / (6K + 2 mu)"⟩,
   ⟨.lam, fun r => .ok (calculateLambda_from_K_mu (r.K.getD 0) (r.mu.getD 0)),
    "lambda = K - (2/3) mu"⟩]

/-- Branch body for the (E, mu) pair. -/
def steps_E_mu : List Step :=
  [⟨.nu, fun r => calculateNu_from_E_mu (r.E.getD 0) (r.mu.getD 0),
    "nu = E/(2 mu) - 1"⟩,
   ⟨.K, fun r => calculateK_from_E_mu (r.E.getD 0) (r.mu.getD 0),
    "K = E mu / (3(3 mu - E))"⟩,
   ⟨.lam, fun r => calculateLambda_from_E_mu (r.E.getD 0) (r.mu.getD 0),
    "lambda = mu(E - 2 mu) / (3 mu - E)"⟩]

/-- Branch body for the (E, K) pair. -/
def steps_E_K : List Step :=
  [⟨.mu, fun r => calculateMu_from_E_K (r.E.getD 0) (r.K.getD 0),
    "mu = 3 K E / (9K - E)"⟩,
   ⟨.nu, fun r => calculateNu_from_E_K (r.E.getD 0) (r.K.getD 0),
    "nu = (3K - E) / (6K)"⟩,
   ⟨.lam, fun r => calculateLambda_from_E_K (r.E.getD 0) (r.K.getD 0),
    "lambda = 3K(3K - E) / (9K - E)"⟩]

/-- Branch body for the (lambda, nu) pair. -/
def steps_lambda_nu : List Step :=
  [⟨.E, fun r => calculateE_from_lambda_nu (r.lambda.getD 0) (r.nu.getD 0),
    "E = lambda(1 + nu)(1 - 2 nu) / nu"⟩,
   ⟨.mu, fun r => calculateMu_from_lambda_nu (r.lambda.getD 0) (r.nu.getD 0),
    "mu = lambda(1 - 2 nu) / (2 nu)"⟩,
   ⟨.K, fun r => calculateK_from_lambda_nu (r.lambda.getD 0) (r.nu.getD 0),
    "K = lambda(1 + nu) / (3 nu)"⟩]

/-- Branch body for the (lambda, K) pair. -/
def steps_lambda_K : List Step :=
  [⟨.E, fun r => calculateE_from_lambda_K (r.lambda.getD 0) (r.K.getD 0),
    "E = 9K(K - lambda) / (3K - lambda)"⟩,
   ⟨.mu, fun r => .ok (calculateMu_from_lambda_K (r.lambda.getD 0) (r.K.getD 0)),
    "mu = (3/2)(K - lambda)"⟩,
   ⟨.nu, fun r => calculateNu_from_lambda_K (r.lambda.getD 0) (r.K.getD 0),
    "nu = lambda / (3K - lambda)"⟩]

/-- Tail of the (lambda, E) quadratic branch: once the root has been stored in
`mu`, the source fills `nu` and `K` from the (lambda, mu) identities. -/
def steps_lambdaE_tail : List Step :=
  [⟨.nu, fun r => calculateNu_from_lambda_mu (r.lambda.getD 0) (r.mu.getD 0),
    "nu = lambda / (2(lambda + mu))"⟩,
   ⟨.K, fun r => .ok (calculateK_from_lambda_mu (r.lambda.getD 0) (r.mu.getD 0)),
    "K = lambda + (2/3) mu"⟩]

/-- Warning text for fewer than two independent inputs. -/
def needTwoMsg : String := "Need at least 2 independent elastic parameters"

/-- Warning text for a negative discriminant in the (lambda, E) branch. -/
def noRealSolutionMsg : String :=
  "No real solution for mu from lambda and E (negative discriminant)"

/-- Derivation text for the (lambda, E) quadratic solve. -/
def quadraticDerivMsg : String := "mu from quadratic: 2 mu^2 + mu(3 lambda - E) - E lambda = 0"

/-- The source catch-block converts a thrown error into a warning. -/
def finishResult (x : MaterialParameters × List String × Option String) : CalculationResult :=
  match x with
  | (r, ds, none) => ⟨r, ds, []⟩
  | (r, ds, some e) => ⟨r, ds, ["Calculation error: " ++ e]⟩

/-- The `G`-aliased shear modulus normalization at the top of
`calculateAllParameters`: a supplied `G` fills `mu` only when `mu` itself was
not supplied. -/
def normalizeG (input : MaterialParameters) : MaterialParameters :=
  match input.mu, input.G with
  | none, some g => { input with mu := some g }
  | _, _ => input

/-- Discriminant `b*b - 4*a*c` of the (lambda, E) quadratic, with `a = 2`,
`b = 3*lambda - E`, `c = -E*lambda` as in the source. -/
def quadDisc (l e : ℝ) : ℝ :=
  (3 * l - e) * (3 * l - e) - 4 * 2 * (-e * l)

/-- The root `mu1 = (-b + sqrt(discriminant)) / (2a)` of the source. -/
def quadRoot1 (l e : ℝ) : ℝ :=
  (-(3 * l - e) + Real.sqrt (quadDisc l e)) / (2 * 2)

/-- The root `mu2 = (-b - sqrt(discriminant)) / (2a)` of the source. -/
def quadRoot2 (l e : ℝ) : ℝ :=
  (-(3 * l - e) - Real.sqrt (quadDisc l e)) / (2 * 2)

/-- The source root selection `mu1 > 0 ? mu1 : mu2`. -/
def quadSel (l e : ℝ) : ℝ :=
  if quadRoot1 l e > 0 then quadRoot1 l e else quadRoot2 l e

/-- The (lambda, E) branch of `calculateAllParameters`: solve the quadratic
2 mu^2 + mu(3 lambda - E) - E lambda = 0; on a negative discriminant emit the
no-real-solution warning, otherwise store the selected root in `mu`, and
derive nu and K from (lambda, mu) only when the stored root is strictly
positive. -/
def branch_lambda_E (r0 : MaterialParameters) : CalculationResult :=
  let l := r0.lambda.getD 0
  let e := r0.E.getD 0
  if quadDisc l e < 0 then ⟨r0, [], [noRealSolutionMsg]⟩
  else
    let r1 := { r0 with mu := some (quadSel l e) }
    if quadSel l e > 0 then finishResult (runSteps steps_lambdaE_tail r1 [quadraticDerivMsg])
    else ⟨r1, [quadraticDerivMsg], []⟩

/-- The body of `calculateAllParameters` after the `G` normalization: count
the supplied elastic parameters and dispatch on the first matching pair in
the fixed source order. -/
def resolveDispatch (r0 : MaterialParameters) : CalculationResult :=
  let hasL := r0.lambda.isSome
  let hasM := r0.mu.isSome
  let hasE := r0.E.isSome
  let hasK := r0.K.isSome
  let hasN := r0.nu.isSome
  let count := (List.filter id [hasL, hasM, hasE, hasK, hasN]).length
  if count < 2 then ⟨r0, [], [needTwoMsg]⟩
  else if hasL && hasM then finishResult (runSteps steps_lambda_mu r0 [])
  else if hasE && hasN then finishResult (runSteps steps_E_nu r0 [])
  else if hasM && hasN then finishResult (runSteps steps_mu_nu r0 [])
  else if hasK && hasN then finishResult (runSteps steps_K_nu r0 [])
  else if hasK && hasM then finishResult (runSteps steps_K_mu r0 [])
  else if hasE && hasM then finishResult (runSteps steps_E_mu r0 [])
  else if hasE && hasK then finishResult (runSteps steps_E_K r0 [])
  else if hasL && hasN then finishResult (runSteps steps_lambda_nu r0 [])
  else if hasL && hasK then finishResult (runSteps steps_lambda_K r0 [])
  else if hasL && hasE then branch_lambda_E r0
  else ⟨r0, [], []⟩

/-- `calculateAllParameters`: normalize `G` to `mu`, count the supplied
elastic parameters, then dispatch on the first matching pair in the fixed
source order; the (lambda, E) pair solves the quadratic
2 mu^2 + mu(3 lambda - E) - E lambda = 0. -/
def calculateAllParameters (input : MaterialParameters) : CalculationResult :=
  resolveDispatch (normalizeG input)

/-! ## The consistency checker (`checkConsistency`)

The source function builds its findings in four sequential blocks; each block
is embedded as one function returning the (possibly empty) list of findings it
appends, with `Except` carrying a division-by-zero thrown by the block's
recomputation. The source has no try/catch here, so an error in a block
aborts the whole call. Each finding message is kept without its interpolated
numbers. -/

/-- Finding text of the E cross-check. -/
def msgEInconsistent : String := "E inconsistent with lambda and mu"

/-- Finding text of the nu cross-check. -/
def msgNuInconsistent : String := "nu inconsistent with lambda and mu"

/-- Finding text of the mu cross-check. -/
def msgMuInconsistent : String := "mu inconsistent with E and nu"

/-- Finding text of the K cross-check. -/
def msgKInconsistent : String := "K inconsistent with mu and nu"

/-- Default value of the `tolerance` parameter of `checkConsistency`. -/
def defaultTolerance : ℝ := 1 / 1000000

/-- First block: if lambda, mu and E are supplied, recompute E from
(lambda, mu) and compare `Math.abs(expectedE - E) / E` (a signed division by
the supplied E) against the tolerance. -/
def consistencyFindingE (p : MaterialParameters) (tol : ℝ) : Except String (List String) :=
  match p.lambda, p.mu, p.E with
  | some l, some m, some e =>
    match calculateE_from_lambda_mu l m with
    | .error msg => .error msg
    | .ok expectedE =>
      .ok (if |expectedE - e| / e > tol then [msgEInconsistent] else [])
  | _, _, _ => .ok []

/-- Second block: if lambda, mu and nu are supplied, recompute nu from
(lambda, mu) and compare the absolute error `Math.abs(expectedNu - nu)`
against the tolerance. -/
def consistencyFindingNu (p : MaterialParameters) (tol : ℝ) : Except String (List String) :=
  match p.lambda, p.mu, p.nu with
  | some l, some m, some n =>
    match calculateNu_from_lambda_mu l m with
    | .error msg => .error msg
    | .ok expectedNu =>
      .ok (if |expectedNu - n| > tol then [msgNuInconsistent] else [])
  | _, _, _ => .ok []

/-- Third block: if E, nu and mu are supplied, recompute mu from (E, nu) and
compare `Math.abs(expectedMu - mu) / mu` against the tolerance. -/
def consistencyFindingMu (p : MaterialParameters) (tol : ℝ) : Except String (List String) :=
  match p.E, p.nu, p.mu with
  | some e, some n, some m =>
    match calculateMu_from_E_nu e n with
    | .error msg => .error msg
    | .ok expectedMu =>
      .ok (if |expectedMu - m| / m > tol then [msgMuInconsistent] else [])
  | _, _, _ => .ok []

/-- Fourth block: if K, mu and nu are supplied, recompute K from (mu, nu) and
compare `Math.abs(expectedK - K) / K` against the tolerance. -/
def consistencyFindingK (p : MaterialParameters) (tol : ℝ) : Except String (List String) :=
  match p.K, p.mu, p.nu with
  | some k, some m, some n =>
    match calculateK_from_mu_nu m n with
    | .error msg => .error msg
    | .ok expectedK =>
      .ok (if |expectedK - k| / k > tol then [msgKInconsistent] else [])
  | _, _, _ => .ok []

/-- `checkConsistency`: the four blocks in source order; the returned list is
their concatenation, and an error in a block propagates to the caller. -/
def checkConsistency (p : MaterialParameters) (tol : ℝ) : Except String (List String) :=
  match consistencyFindingE p tol with
  | .error e => .error e
  | .ok l1 =>
    match consistencyFindingNu p tol with
    | .error e => .error e
    | .ok l2 =>
      match consistencyFindingMu p tol with
      | .error e => .error e
      | .ok l3 =>
        match consistencyFindingK p tol with
        | .error e => .error e
        | .ok l4 => .ok (l1 ++ l2 ++ l3 ++ l4)

/-! ## The bounds validators (validators.ts)

The validators inspect raw JavaScript numbers, including `NaN` and the two
infinities, before any arithmetic; a JS number is embedded as either a finite
real or one of those three special values. The `isNaN(x) or not isFinite(x)`
early return of each validator corresponds to the non-`num` constructors. -/

/-- A JavaScript number: a finite real value, NaN, or an infinity. -/
inductive JSNumber where
  | num (x : ℝ)
  | nan
  | posInf
  | negInf

/-- `isNaN(v) or not isFinite(v)` of the source validators. -/
def jsNotFinite : JSNumber → Bool
  | .num _ => false
  | _ => true

/-- The `ValidationError` interface. -/
structure ValidationError where
  field : String
  message : String
  suggestion : Option String
deriving DecidableEq

/-- The parameter record accepted by `validateAllParameters`. -/
structure VParams where
  lambda : Option JSNumber := none
  mu : Option JSNumber := none
  E : Option JSNumber := none
  K : Option JSNumber := none
  nu : Option JSNumber := none
  rho : Option JSNumber := none

/-- Hard-violation message of `validatePoissonsRatio` for a non-finite value. -/
def nuFiniteMsg : String := "Poissons ratio must be a finite number"

/-- Hard-violation message of `validatePoissonsRatio` for an out-of-range value. -/
def nuBoundsMsg : String :=
  "Poissons ratio must be between -1 and 0.5 for stable isotropic materials"

/-- Suggestion attached to the out-of-range violation. -/
def nuBoundsSuggestion : String :=
  "Common materials have 0 < nu < 0.5. Steel is about 0.3, Rubber about 0.48"

/-- Soft-advisory message of `validatePoissonsRatio` for a negative value. -/
def nuAuxeticMsg : String := "Warning: Negative Poissons ratio (auxetic material)"

/-- Suggestion attached to the auxetic advisory. -/
def nuAuxeticSuggestion : String := "Rare but valid for certain engineered materials"

/-- `validatePoissonsRatio`: non-finite and values with nu <= -1 or
nu >= 0.5 are hard violations, negative admissible values get the auxetic
advisory, and values in [0, 0.5) pass. -/
def validatePoissonsRatio (nu : JSNumber) : Option ValidationError :=
  match nu with
  | .num x =>
    if x ≤ -1 ∨ 0.5 ≤ x then some ⟨"nu", nuBoundsMsg, some nuBoundsSuggestion⟩
    else if x < 0 then some ⟨"nu", nuAuxeticMsg, some nuAuxeticSuggestion⟩
    else none
  | _ => some ⟨"nu", nuFiniteMsg, none⟩

/-- `validateShearModulus`: must be finite and strictly positive. -/
def validateShearModulus (mu : JSNumber) : Option ValidationError :=
  match mu with
  | .num x =>
    if x ≤ 0 then
      some ⟨"mu", "Shear modulus must be positive",
        some "Typical range: 1 GPa (polymers) to 100 GPa (metals)"⟩
    else none
  | _ => some ⟨"mu", "Shear modulus must be a finite number", none⟩

/-- `validateBulkModulus`: must be finite and strictly positive. -/
def validateBulkModulus (K : JSNumber) : Option ValidationError :=
  match K with
  | .num x =>
    if x ≤ 0 then
      some ⟨"K", "Bulk modulus must be positive", some "Typical range: 1 GPa to 400 GPa"⟩
    else none
  | _ => some ⟨"K", "Bulk modulus must be a finite number", none⟩

/-- `validateYoungsModulus`: must be finite and strictly positive. -/
def validateYoungsModulus (E : JSNumber) : Option ValidationError :=
  match E with
  | .num x =>
    if x ≤ 0 then
      some ⟨"E", "Youngs modulus must be positive",
        some "Typical range: 0.01 GPa (rubber) to 1000 GPa (diamond)"⟩
    else none
  | _ => some ⟨"E", "Youngs modulus must be a finite number", none⟩

/-- `validateLameParameter`: finite required; negative only draws an advisory. -/
def validateLameParameter (lambda : JSNumber) : Option ValidationError :=
  match lambda with
  | .num x =>
    if x < 0 then
      some ⟨"lambda", "Warning: Negative lambda corresponds to negative Poissons ratio",
        some "Valid but uncommon (auxetic materials)"⟩
    else none
  | _ => some ⟨"lambda", "Lame parameter lambda must be a finite number", none⟩

/-- `validateDensity`: must be finite and strictly positive. -/
def validateDensity (rho : JSNumber) : Option ValidationError :=
  match rho with
  | .num x =>
    if x ≤ 0 then
      some ⟨"rho", "Density must be positive",
        some "Typical range: 100 kg per cubic metre (foam) to 20000 (heavy metals)"⟩
    else none
  | _ => some ⟨"rho", "Density must be a finite number", none⟩

/-- Append an optional finding (`if (error) errors.push(error)`). -/
def pushFinding (acc : List ValidationError) : Option ValidationError → List ValidationError
  | some e => acc ++ [e]
  | none => acc

/-- `validateAllParameters`: run each field validator on the fields that are
supplied, in source order. -/
def validateAllParameters (params : VParams) : List ValidationError :=
  let errs : List ValidationError := []
  let errs := match params.lambda with
    | some v => pushFinding errs (validateLameParameter v)
    | none => errs
  let errs := match params.mu with
    | some v => pushFinding errs (validateShearModulus v)
    | none => errs
  let errs := match params.E with
    | some v => pushFinding errs (validateYoungsModulus v)
    | none => errs
  let errs := match params.K with
    | some v => pushFinding errs (validateBulkModulus v)
    | none => errs
  let errs := match params.nu with
    | some v => pushFinding errs (validatePoissonsRatio v)
    | none => errs
  let errs := match params.rho with
    | some v => pushFinding errs (validateDensity v)
    | none => errs
  errs

/-! ## Helper lemmas -/

/-- The guard epsilon is positive. -/
lemma EPSILON_pos : (0 : ℝ) < EPSILON := by norm_num [EPSILON]

/-- A guarded formula succeeds when its denominator clears the epsilon. -/
lemma ok_of_eps_le {x v : ℝ} {e : String} (h : EPSILON ≤ |x|) :
    (if |x| < EPSILON then Except.error e else Except.ok v) = Except.ok v :=
  if_neg (not_lt.mpr h)

/-- A guarded formula fails when its denominator is inside the epsilon. -/
lemma error_of_lt_eps {x v : ℝ} {e : String} (h : |x| < EPSILON) :
    (if |x| < EPSILON then Except.error e else Except.ok v) = Except.error e :=
  if_pos h

/-- A quantity whose magnitude clears the epsilon is nonzero. -/
lemma ne_zero_of_eps_le {x : ℝ} (h : EPSILON ≤ |x|) : x ≠ 0 := by
  intro hx
  rw [hx, abs_zero] at h
  exact absurd h (not_le.mpr EPSILON_pos)

/-- A finding already collected survives a later `pushFinding`. -/
lemma mem_pushFinding {acc : List ValidationError} {e : ValidationError}
    (o : Option ValidationError) (h : e ∈ acc) : e ∈ pushFinding acc o := by
  cases o <;> simp [pushFinding, h]

/-- `pushFinding` records the finding it is given. -/
lemma mem_pushFinding_self (acc : List ValidationError) (e : ValidationError) :
    e ∈ pushFinding acc (some e) := by
  simp [pushFinding]

/-- Whether a checker call aborted with an error instead of a findings list. -/
def isErrorResult : Except String (List String) → Bool
  | .error _ => true
  | .ok _ => false

/-- A relative-error comparison whose divisor is the (negative) supplied value
never exceeds a nonneg tolerance. -/
lemma rel_check_skip {d s tol : ℝ} (hs : s < 0) (htol : 0 ≤ tol) (msg : String) :
    (if |d| / s > tol then [msg] else []) = ([] : List String) := by
  refine if_neg (not_lt.mpr ?_)
  have hle : |d| / s ≤ 0 := by
    rw [div_nonpos_iff]
    exact Or.inl ⟨abs_nonneg _, hs.le⟩
  linarith

/-- The E block errors exactly when lambda, mu and E are supplied and the
lambda + mu guard trips. -/
lemma findingE_error_iff (p : MaterialParameters) (tol : ℝ) :
    isErrorResult (consistencyFindingE p tol) = true ↔
      (p.lambda.isSome = true ∧ p.mu.isSome = true ∧ p.E.isSome = true ∧
        |p.lambda.getD 0 + p.mu.getD 0| < EPSILON) := by
  obtain ⟨pl, pm, pe, pk, pn, pr, pg⟩ := p
  cases pl <;> cases pm <;> cases pe <;>
    simp only [consistencyFindingE, calculateE_from_lambda_mu, Option.isSome_some,
      Option.isSome_none, Option.getD_some, isErrorResult, Bool.false_eq_true,
      false_and, and_false, true_and, iff_false] <;>
    try simp
  split_ifs with hg <;> simp [isErrorResult, hg]

/-- The nu block errors exactly when lambda, mu and nu are supplied and the
2(lambda + mu) guard trips. -/
lemma findingNu_error_iff (p : MaterialParameters) (tol : ℝ) :
    isErrorResult (consistencyFindingNu p tol) = true ↔
      (p.lambda.isSome = true ∧ p.mu.isSome = true ∧ p.nu.isSome = true ∧
        |2 * (p.lambda.getD 0 + p.mu.getD 0)| < EPSILON) := by
  obtain ⟨pl, pm, pe, pk, pn, pr, pg⟩ := p
  cases pl <;> cases pm <;> cases pn <;>
    simp only [consistencyFindingNu, calculateNu_from_lambda_mu, Option.isSome_some,
      Option.isSome_none, Option.getD_some, isErrorResult, Bool.false_eq_true,
      false_and, and_false, true_and, iff_false] <;>
    try simp
  split_ifs with hg <;> simp [isErrorResult, hg]

/-- The mu block errors exactly when E, nu and mu are supplied and the
2(1 + nu) guard trips. -/
lemma findingMu_error_iff (p : MaterialParameters) (tol : ℝ) :
    isErrorResult (consistencyFindingMu p tol) = true ↔
      (p.E.isSome = true ∧ p.nu.isSome = true ∧ p.mu.isSome = true ∧
        |2 * (1 + p.nu.getD 0)| < EPSILON) := by
  obtain ⟨pl, pm, pe, pk, pn, pr, pg⟩ := p
  cases pe <;> cases pn <;> cases pm <;>
    simp only [consistencyFindingMu, calculateMu_from_E_nu, Option.isSome_some,
      Option.isSome_none, Option.getD_some, isErrorResult, Bool.false_eq_true,
      false_and, and_false, true_and, iff_false] <;>
    try simp
  split_ifs with hg <;> simp [isErrorResult, hg]

/-- The K block errors exactly when K, mu and nu are supplied and the
3(1 - 2 nu) guard trips. -/
lemma findingK_error_iff (p : MaterialParameters) (tol : ℝ) :
    isErrorResult (consistencyFindingK p tol) = true ↔
      (p.K.isSome = true ∧ p.mu.isSome = true ∧ p.nu.isSome = true ∧
        |3 * (1 - 2 * p.nu.getD 0)| < EPSILON) := by
  obtain ⟨pl, pm, pe, pk, pn, pr, pg⟩ := p
  cases pk <;> cases pm <;> cases pn <;>
    simp only [consistencyFindingK, calculateK_from_mu_nu, Option.isSome_some,
      Option.isSome_none, Option.getD_some, isErrorResult, Bool.false_eq_true,
      false_and, and_false, true_and, iff_false] <;>
    try simp
  split_ifs with hg <;> simp [isErrorResult, hg]

/-- The whole checker errors exactly when one of its four blocks errors. -/
lemma checkConsistency_error_split (p : MaterialParameters) (tol : ℝ) :
    isErrorResult (checkConsistency p tol) = true ↔
      isErrorResult (consistencyFindingE p tol) = true ∨
      isErrorResult (consistencyFindingNu p tol) = true ∨
      isErrorResult (consistencyFindingMu p tol) = true ∨
      isErrorResult (consistencyFindingK p tol) = true := by
  rw [checkConsistency]
  cases hE : consistencyFindingE p tol <;>
    cases hNu : consistencyFindingNu p tol <;>
      cases hMu : consistencyFindingMu p tol <;>
        cases hK : consistencyFindingK p tol <;>
          simp [isErrorResult]

/-- Assigning one field leaves every other field unchanged. -/
lemma getP_setP_ne {f t : Param} (h : f ≠ t) (v : ℝ) (r : MaterialParameters) :
    getP f (setP t v r) = getP f r := by
  cases f <;> cases t <;> simp_all [getP, setP]

/-- Assignments never touch the density field. -/
lemma rho_setP (t : Param) (v : ℝ) (r : MaterialParameters) :
    (setP t v r).rho = r.rho := by
  cases t <;> simp [setP]

/-- A field that is set when a branch starts is still set, with the same
value, when the branch ends — steps only fill unset fields. -/
lemma runSteps_preserves (L : List Step) (r : MaterialParameters) (ds : List String)
    (f : Param) (v : ℝ) (h : getP f r = some v) :
    getP f (runSteps L r ds).1 = some v := by
  induction L generalizing r ds with
  | nil => simpa [runSteps] using h
  | cons s rest ih =>
    rw [runSteps]
    cases hg : getP s.target r with
    | some w =>
      exact ih r ds h
    | none =>
      cases hc : s.comp r with
      | error e => simpa using h
      | ok w =>
        by_cases hft : f = s.target
        · rw [hft, hg] at h
          exact absurd h (by simp)
        · exact ih _ _ (by rw [getP_setP_ne hft]; exact h)

/-- Branches never touch the density field. -/
lemma runSteps_rho (L : List Step) (r : MaterialParameters) (ds : List String) :
    (runSteps L r ds).1.rho = r.rho := by
  induction L generalizing r ds with
  | nil => simp [runSteps]
  | cons s rest ih =>
    rw [runSteps]
    cases hg : getP s.target r with
    | some w => exact ih r ds
    | none =>
      cases hc : s.comp r with
      | error e => simp
      | ok w => rw [ih _ _, rho_setP]

/-- The catch-block conversion does not alter the parameter record. -/
lemma finishResult_parameters (x : MaterialParameters × List String × Option String) :
    (finishResult x).parameters = x.1 := by
  obtain ⟨r, ds, e⟩ := x
  cases e <;> rfl

/-- The `G`-to-`mu` normalization preserves every field already set. -/
lemma normalize_preserves (input : MaterialParameters) (f : Param) (v : ℝ)
    (h : getP f input = some v) :
    getP f (normalizeG input) = some v := by
  rw [normalizeG]
  cases hm : input.mu <;> cases hgg : input.G <;> simp only [hm, hgg] <;>
    cases f <;> simp_all [getP]

/-- The `G`-to-`mu` normalization does not touch the density field. -/
lemma normalize_rho (input : MaterialParameters) :
    (normalizeG input).rho = input.rho := by
  rw [normalizeG]
  cases hm : input.mu <;> cases hgg : input.G <;> simp [hm, hgg]

/-- The (lambda, E) branch can only be entered with `mu` unset; it then
preserves every field that is set. -/
lemma branch_lambda_E_preserves (r0 : MaterialParameters) (f : Param) (v : ℝ)
    (h : getP f r0 = some v) (hmn : r0.mu = none) :
    getP f (branch_lambda_E r0).parameters = some v := by
  have hrec : ∀ w : ℝ, getP f { r0 with mu := some w } = some v := by
    intro w
    cases f with
    | mu =>
      rw [getP] at h
      rw [hmn] at h
      exact absurd h (by simp)
    | lam => simpa [getP] using h
    | E => simpa [getP] using h
    | K => simpa [getP] using h
    | nu => simpa [getP] using h
  simp only [branch_lambda_E]
  split_ifs <;>
    first
    | exact h
    | (rw [finishResult_parameters]; exact runSteps_preserves _ _ _ _ _ (hrec _))
    | exact hrec _

/-- The (lambda, E) branch does not touch the density field. -/
lemma branch_lambda_E_rho (r0 : MaterialParameters) :
    (branch_lambda_E r0).parameters.rho = r0.rho := by
  simp only [branch_lambda_E]
  split_ifs <;>
    first
    | rfl
    | rw [finishResult_parameters, runSteps_rho]

/-- The selected value is a root of 2 mu^2 + (3 lambda - E) mu - E lambda = 0
whenever the discriminant is nonnegative. -/
lemma quadSel_is_root (l e : ℝ) (hd : 0 ≤ quadDisc l e) :
    2 * quadSel l e * quadSel l e + (3 * l - e) * quadSel l e - e * l = 0 := by
  have hs : Real.sqrt (quadDisc l e) * Real.sqrt (quadDisc l e) = quadDisc l e :=
    Real.mul_self_sqrt hd
  rw [quadDisc] at hs
  rw [quadSel, quadRoot1, quadRoot2, quadDisc]
  split_ifs with h1
  · linear_combination (1 / 8 : ℝ) * hs
  · linear_combination (1 / 8 : ℝ) * hs

/-- With both inputs positive the discriminant is strictly positive. -/
lemma quadDisc_pos {l e : ℝ} (hl : 0 < l) (he : 0 < e) : 0 < quadDisc l e := by
  rw [quadDisc]
  nlinarith [sq_nonneg (3 * l - e)]

/-- With both inputs positive, the larger root mu1 is strictly positive. -/
lemma quadRoot1_pos {l e : ℝ} (hl : 0 < l) (he : 0 < e) : 0 < quadRoot1 l e := by
  rw [quadRoot1]
  have hd := quadDisc_pos hl he
  rcases le_or_lt (3 * l - e) 0 with hb | hb
  · have hs : 0 < Real.sqrt (quadDisc l e) := Real.sqrt_pos.mpr hd
    have : 0 < -(3 * l - e) + Real.sqrt (quadDisc l e) := by linarith
    positivity
  · have hs : 3 * l - e < Real.sqrt (quadDisc l e) := by
      rw [show Real.sqrt (quadDisc l e) = Real.sqrt (quadDisc l e) from rfl]
      refine (Real.lt_sqrt hb.le).mpr ?_
      rw [quadDisc]
      nlinarith
    have : 0 < -(3 * l - e) + Real.sqrt (quadDisc l e) := by linarith
    positivity

/-- With both inputs positive the source selection picks mu1. -/
lemma quadSel_eq_root1 {l e : ℝ} (hl : 0 < l) (he : 0 < e) :
    quadSel l e = quadRoot1 l e := by
  rw [quadSel, if_pos (quadRoot1_pos hl he)]

/-- With only lambda and E supplied, the resolver lands in the (lambda, E)
quadratic branch. -/
lemma resolve_lambda_E (l e : ℝ) (rho : Option ℝ) :
    calculateAllParameters ⟨some l, none, some e, none, none, rho, none⟩ =
      branch_lambda_E ⟨some l, none, some e, none, none, rho, none⟩ := by
  simp [calculateAllParameters, normalizeG, resolveDispatch, List.filter]

/-- Negative discriminant: warning pushed, nothing derived. -/
lemma branchLE_negdisc (l e : ℝ) (rho : Option ℝ) (hd : quadDisc l e < 0) :
    branch_lambda_E ⟨some l, none, some e, none, none, rho, none⟩ =
      ⟨⟨some l, none, some e, none, none, rho, none⟩, [], [noRealSolutionMsg]⟩ := by
  simp only [branch_lambda_E, Option.getD_some]
  rw [if_pos hd]

/-- Nonnegative discriminant, selected root not positive: only mu is stored. -/
lemma branchLE_sel_npos (l e : ℝ) (rho : Option ℝ) (hd : ¬quadDisc l e < 0)
    (hnp : ¬quadSel l e > 0) :
    branch_lambda_E ⟨some l, none, some e, none, none, rho, none⟩ =
      ⟨⟨some l, some (quadSel l e), some e, none, none, rho, none⟩,
        [quadraticDerivMsg], []⟩ := by
  simp only [branch_lambda_E, Option.getD_some]
  rw [if_neg hd, if_neg hnp]

/-- Nonnegative discriminant, positive selected root, nu guard clear:
nu and K are derived from the resolved (lambda, mu) pair. -/
lemma branchLE_sel_pos_ok (l e : ℝ) (rho : Option ℝ) (hd : ¬quadDisc l e < 0)
    (hp : quadSel l e > 0) (hg : EPSILON ≤ |2 * (l + quadSel l e)|) :
    branch_lambda_E ⟨some l, none, some e, none, none, rho, none⟩ =
      ⟨⟨some l, some (quadSel l e), some e, some (l + 2 / 3 * quadSel l e),
          some (l / (2 * (l + quadSel l e))), rho, none⟩,
        [quadraticDerivMsg, "nu = lambda / (2(lambda + mu))", "K = lambda + (2/3) mu"],
        []⟩ := by
  simp only [branch_lambda_E, Option.getD_some]
  rw [if_neg hd, if_pos hp]
  simp only [steps_lambdaE_tail, runSteps, getP, setP, Option.getD_some,
    finishResult, calculateNu_from_lambda_mu, calculateK_from_lambda_mu,
    ok_of_eps_le hg]
  norm_num

/-- Nonnegative discriminant, positive selected root, nu guard tripped: the
division-by-zero failure is caught, nu and K stay unset. -/
lemma branchLE_sel_pos_guard (l e : ℝ) (rho : Option ℝ) (hd : ¬quadDisc l e < 0)
    (hp : quadSel l e > 0) (hg : |2 * (l + quadSel l e)| < EPSILON) :
    branch_lambda_E ⟨some l, none, some e, none, none, rho, none⟩ =
      ⟨⟨some l, some (quadSel l e), some e, none, none, rho, none⟩,
        [quadraticDerivMsg],
        ["Calculation error: Division by zero: 2(lambda + mu) = 0"]⟩ := by
  simp only [branch_lambda_E, Option.getD_some]
  rw [if_neg hd, if_pos hp]
  simp only [steps_lambdaE_tail, runSteps, getP, setP, Option.getD_some,
    finishResult, calculateNu_from_lambda_mu, error_of_lt_eps hg]
  norm_num
  rfl

/-- Doubling preserves clearing the epsilon. -/
lemma eps_le_double {x : ℝ} (h : EPSILON ≤ |x|) : EPSILON ≤ |2 * x| := by
  rw [abs_mul]
  have h2 : |(2 : ℝ)| = 2 := by norm_num
  rw [h2]
  nlinarith [abs_nonneg x]

/-- A zero-discrepancy relative comparison never fires. -/
lemma skip_zero_rel {s tol : ℝ} (htol : 0 ≤ tol) (msg : String) :
    (if |s - s| / s > tol then [msg] else []) = ([] : List String) := by
  rw [if_neg]
  rw [sub_self, abs_zero, zero_div]
  exact not_lt.mpr htol

/-- A zero-discrepancy absolute comparison never fires. -/
lemma skip_zero_abs {s tol : ℝ} (htol : 0 ≤ tol) (msg : String) :
    (if |s - s| > tol then [msg] else []) = ([] : List String) := by
  rw [if_neg]
  rw [sub_self, abs_zero]
  exact not_lt.mpr htol

/-- A fully resolved record that satisfies the three (lambda, mu)-form
coherence identities (in cross-multiplied form) passes every consistency
check with zero discrepancy, so the checker returns no findings. -/
lemma checkConsistency_coherent (lam mu E K nu tol : ℝ) (rho G : Option ℝ)
    (htol : 0 ≤ tol)
    (hg1 : EPSILON ≤ |lam + mu|)
    (hg3 : EPSILON ≤ |2 * (1 + nu)|)
    (hg4 : EPSILON ≤ |3 * (1 - 2 * nu)|)
    (hE : E * (lam + mu) = mu * (3 * lam + 2 * mu))
    (hNu : nu * (2 * (lam + mu)) = lam)
    (hK : K = lam + 2 / 3 * mu) :
    checkConsistency ⟨some lam, some mu, some E, some K, some nu, rho, G⟩ tol =
      .ok [] := by
  have hlm : lam + mu ≠ 0 := ne_zero_of_eps_le hg1
  have hlm2 : 2 * (lam + mu) ≠ 0 := ne_zero_of_eps_le (eps_le_double hg1)
  have h1nu : 2 * (1 + nu) ≠ 0 := ne_zero_of_eps_le hg3
  have h12nu : 3 * (1 - 2 * nu) ≠ 0 := ne_zero_of_eps_le hg4
  have hEeq : mu * (3 * lam + 2 * mu) / (lam + mu) = E := by
    rw [div_eq_iff hlm]
    linear_combination -hE
  have hNueq : lam / (2 * (lam + mu)) = nu := by
    rw [div_eq_iff hlm2]
    linear_combination -hNu
  have key : E * (lam + mu) = (mu * (2 * (1 + nu))) * (lam + mu) := by
    linear_combination hE - mu * hNu
  have hMueq : E / (2 * (1 + nu)) = mu := by
    rw [div_eq_iff h1nu]
    exact mul_right_cancel₀ hlm key
  have hKeq : 2 * mu * (1 + nu) / (3 * (1 - 2 * nu)) = K := by
    rw [div_eq_iff h12nu, hK]
    linear_combination 3 * hNu
  simp only [checkConsistency, consistencyFindingE, consistencyFindingNu,
    consistencyFindingMu, consistencyFindingK, calculateE_from_lambda_mu,
    calculateNu_from_lambda_mu, calculateMu_from_E_nu, calculateK_from_mu_nu,
    ok_of_eps_le hg1, ok_of_eps_le (eps_le_double hg1), ok_of_eps_le hg3,
    ok_of_eps_le hg4, hEeq, hNueq, hMueq, hKeq, skip_zero_rel htol,
    skip_zero_abs htol, List.append_nil]

/-- A record with no shear modulus is vacuously consistent: all four checks
require mu. -/
lemma checkConsistency_mu_none (p : MaterialParameters) (tol : ℝ)
    (h : p.mu = none) : checkConsistency p tol = .ok [] := by
  obtain ⟨pl, pm, pe, pk, pn, pr, pg⟩ := p
  simp only at h
  subst h
  cases pl <;> cases pe <;> cases pk <;> cases pn <;>
    simp [checkConsistency, consistencyFindingE, consistencyFindingNu,
      consistencyFindingMu, consistencyFindingK]

/-- Full evaluation of the (lambda, mu) branch on a two-parameter input. -/
lemma resolveLM_eval (l m : ℝ) (rho : Option ℝ) (hg1 : EPSILON ≤ |l + m|)
    (hg2 : EPSILON ≤ |2 * (l + m)|) :
    calculateAllParameters ⟨some l, some m, none, none, none, rho, none⟩ =
      ⟨⟨some l, some m, some (m * (3 * l + 2 * m) / (l + m)), some (l + 2 / 3 * m),
          some (l / (2 * (l + m))), rho, none⟩,
        ["E = mu(3 lambda + 2 mu) / (lambda + mu)", "nu = lambda / (2(lambda + mu))",
          "K = lambda + (2/3) mu"], []⟩ := by
  simp only [calculateAllParameters, normalizeG, resolveDispatch, steps_lambda_mu,
    runSteps, getP, setP, Option.getD_some, Option.isSome_some, Option.isSome_none,
    List.filter, finishResult, calculateE_from_lambda_mu, calculateNu_from_lambda_mu,
    calculateK_from_lambda_mu, ok_of_eps_le hg1, ok_of_eps_le hg2]
  norm_num

/-- Full evaluation of the (E, nu) branch on a two-parameter input. -/
lemma resolveEN_eval (e n : ℝ) (rho : Option ℝ) (hg1 : EPSILON ≤ |2 * (1 + n)|)
    (hg2 : EPSILON ≤ |(1 + n) * (1 - 2 * n)|) (hg3 : EPSILON ≤ |3 * (1 - 2 * n)|) :
    calculateAllParameters ⟨none, none, some e, none, some n, rho, none⟩ =
      ⟨⟨some (e * n / ((1 + n) * (1 - 2 * n))), some (e / (2 * (1 + n))), some e,
          some (e / (3 * (1 - 2 * n))), some n, rho, none⟩,
        ["mu = E / (2(1 + nu))", "lambda = E nu / ((1 + nu)(1 - 2 nu))",
          "K = E / (3(1 - 2 nu))"], []⟩ := by
  simp only [calculateAllParameters, normalizeG, resolveDispatch, steps_E_nu,
    runSteps, getP, setP, Option.getD_some, Option.isSome_some, Option.isSome_none,
    List.filter, finishResult, calculateMu_from_E_nu, calculateLambda_from_E_nu,
    calculateK_from_E_nu, ok_of_eps_le hg1, ok_of_eps_le hg2, ok_of_eps_le hg3]
  norm_num

/-- Full evaluation of the (mu, nu) branch on a two-parameter input. -/
lemma resolveMN_eval (m n : ℝ) (rho : Option ℝ) (hg1 : EPSILON ≤ |1 - 2 * n|)
    (hg2 : EPSILON ≤ |3 * (1 - 2 * n)|) :
    calculateAllParameters ⟨none, some m, none, none, some n, rho, none⟩ =
      ⟨⟨some (2 * m * n / (1 - 2 * n)), some m, some (2 * m * (1 + n)),
          some (2 * m * (1 + n) / (3 * (1 - 2 * n))), some n, rho, none⟩,
        ["E = 2 mu (1 + nu)", "lambda = 2 mu nu / (1 - 2 nu)",
          "K = 2 mu (1 + nu) / (3(1 - 2 nu))"], []⟩ := by
  simp only [calculateAllParameters, normalizeG, resolveDispatch, steps_mu_nu,
    runSteps, getP, setP, Option.getD_some, Option.isSome_some, Option.isSome_none,
    List.filter, finishResult, calculateE_from_mu_nu, calculateLambda_from_mu_nu,
    calculateK_from_mu_nu, ok_of_eps_le hg1, ok_of_eps_le hg2]
  norm_num

/-- Full evaluation of the (K, nu) branch on a two-parameter input. -/
lemma resolveKN_eval (k n : ℝ) (rho : Option ℝ) (hg1 : EPSILON ≤ |2 * (1 + n)|)
    (hg2 : EPSILON ≤ |1 + n|) :
    calculateAllParameters ⟨none, none, none, some k, some n, rho, none⟩ =
      ⟨⟨some (3 * k * n / (1 + n)), some (3 * k * (1 - 2 * n) / (2 * (1 + n))),
          some (3 * k * (1 - 2 * n)), some k, some n, rho, none⟩,
        ["E = 3K(1 - 2 nu)", "mu = 3K(1 - 2 nu) / (2(1 + nu))",
          "lambda = 3 K nu / (1 + nu)"], []⟩ := by
  simp only [calculateAllParameters, normalizeG, resolveDispatch, steps_K_nu,
    runSteps, getP, setP, Option.getD_some, Option.isSome_some, Option.isSome_none,
    List.filter, finishResult, calculateE_from_K_nu, calculateMu_from_K_nu,
    calculateLambda_from_K_nu, ok_of_eps_le hg1, ok_of_eps_le hg2]
  norm_num

/-- Full evaluation of the (K, mu) branch on a two-parameter input. -/
lemma resolveKM_eval (k m : ℝ) (rho : Option ℝ) (hg1 : EPSILON ≤ |3 * k + m|)
    (hg2 : EPSILON ≤ |6 * k + 2 * m|) :
    calculateAllParameters ⟨none, some m, none, some k, none, rho, none⟩ =
      ⟨⟨some (k - 2 / 3 * m), some m, some (9 * k * m / (3 * k + m)), some k,
          some ((3 * k - 2 * m) / (6 * k + 2 * m)), rho, none⟩,
        ["E = 9 K mu / (3K + mu)", "nu = (3K - 2 mu) / (6K + 2 mu)",
          "lambda = K - (2/3) mu"], []⟩ := by
  simp only [calculateAllParameters, normalizeG, resolveDispatch, steps_K_mu,
    runSteps, getP, setP, Option.getD_some, Option.isSome_some, Option.isSome_none,
    List.filter, finishResult, calculateE_from_K_mu, calculateNu_from_K_mu,
    calculateLambda_from_K_mu, ok_of_eps_le hg1, ok_of_eps_le hg2]
  norm_num

/-- Full evaluation of the (E, mu) branch on a two-parameter input. -/
lemma resolveEM_eval (e m : ℝ) (rho : Option ℝ) (hg1 : EPSILON ≤ |2 * m|)
    (hg2 : EPSILON ≤ |3 * (3 * m - e)|) (hg3 : EPSILON ≤ |3 * m - e|) :
    calculateAllParameters ⟨none, some m, some e, none, none, rho, none⟩ =
      ⟨⟨some (m * (e - 2 * m) / (3 * m - e)), some m, some e,
          some (e * m / (3 * (3 * m - e))), some (e / (2 * m) - 1), rho, none⟩,
        ["nu = E/(2 mu) - 1", "K = E mu / (3(3 mu - E))",
          "lambda = mu(E - 2 mu) / (3 mu - E)"], []⟩ := by
  simp only [calculateAllParameters, normalizeG, resolveDispatch, steps_E_mu,
    runSteps, getP, setP, Option.getD_some, Option.isSome_some, Option.isSome_none,
    List.filter, finishResult, calculateNu_from_E_mu, calculateK_from_E_mu,
    calculateLambda_from_E_mu, ok_of_eps_le hg1, ok_of_eps_le hg2, ok_of_eps_le hg3]
  norm_num

/-- Full evaluation of the (E, K) branch on a two-parameter input. -/
lemma resolveEK_eval (e k : ℝ) (rho : Option ℝ) (hg1 : EPSILON ≤ |9 * k - e|)
    (hg2 : EPSILON ≤ |6 * k|) :
    calculateAllParameters ⟨none, none, some e, some k, none, rho, none⟩ =
      ⟨⟨some (3 * k * (3 * k - e) / (9 * k - e)), some (3 * k * e / (9 * k - e)),
          some e, some k, some ((3 * k - e) / (6 * k)), rho, none⟩,
        ["mu = 3 K E / (9K - E)", "nu = (3K - E) / (6K)",
          "lambda = 3K(3K - E) / (9K - E)"], []⟩ := by
  simp only [calculateAllParameters, normalizeG, resolveDispatch, steps_E_K,
    runSteps, getP, setP, Option.getD_some, Option.isSome_some, Option.isSome_none,
    List.filter, finishResult, calculateMu_from_E_K, calculateNu_from_E_K,
    calculateLambda_from_E_K, ok_of_eps_le hg1, ok_of_eps_le hg2]
  norm_num

/-- Full evaluation of the (lambda, nu) branch on a two-parameter input. -/
lemma resolveLN_eval (l n : ℝ) (rho : Option ℝ) (hg1 : EPSILON ≤ |n|)
    (hg2 : EPSILON ≤ |2 * n|) (hg3 : EPSILON ≤ |3 * n|) :
    calculateAllParameters ⟨some l, none, none, none, some n, rho, none⟩ =
      ⟨⟨some l, some (l * (1 - 2 * n) / (2 * n)), some (l * (1 + n) * (1 - 2 * n) / n),
          some (l * (1 + n) / (3 * n)), some n, rho, none⟩,
        ["E = lambda(1 + nu)(1 - 2 nu) / nu", "mu = lambda(1 - 2 nu) / (2 nu)",
          "K = lambda(1 + nu) / (3 nu)"], []⟩ := by
  simp only [calculateAllParameters, normalizeG, resolveDispatch, steps_lambda_nu,
    runSteps, getP, setP, Option.getD_some, Option.isSome_some, Option.isSome_none,
    List.filter, finishResult, calculateE_from_lambda_nu, calculateMu_from_lambda_nu,
    calculateK_from_lambda_nu, ok_of_eps_le hg1, ok_of_eps_le hg2, ok_of_eps_le hg3]
  norm_num

/-- Full evaluation of the (lambda, K) branch on a two-parameter input. -/
lemma resolveLK_eval (l k : ℝ) (rho : Option ℝ) (hg1 : EPSILON ≤ |3 * k - l|) :
    calculateAllParameters ⟨some l, none, none, some k, none, rho, none⟩ =
      ⟨⟨some l, some (3 / 2 * (k - l)), some (9 * k * (k - l) / (3 * k - l)), some k,
          some (l / (3 * k - l)), rho, none⟩,
        ["E = 9K(K - lambda) / (3K - lambda)", "mu = (3/2)(K - lambda)",
          "nu = lambda / (3K - lambda)"], []⟩ := by
  simp only [calculateAllParameters, normalizeG, resolveDispatch, steps_lambda_K,
    runSteps, getP, setP, Option.getD_some, Option.isSome_some, Option.isSome_none,
    List.filter, finishResult, calculateE_from_lambda_K, calculateMu_from_lambda_K,
    calculateNu_from_lambda_K, ok_of_eps_le hg1]
  norm_num

/-- Validity domain for a (lambda, mu) input: the branch denominators and the
guards of the checks on the resolved record clear the epsilon. -/
def condLM (l m : ℝ) : Prop :=
  EPSILON ≤ |l + m| ∧ EPSILON ≤ |2 * (l + m)| ∧
    EPSILON ≤ |2 * (1 + l / (2 * (l + m)))| ∧
    EPSILON ≤ |3 * (1 - 2 * (l / (2 * (l + m))))|

/-- Validity domain for an (E, nu) input. -/
def condEN (e n : ℝ) : Prop :=
  EPSILON ≤ |2 * (1 + n)| ∧ EPSILON ≤ |(1 + n) * (1 - 2 * n)| ∧
    EPSILON ≤ |3 * (1 - 2 * n)| ∧
    EPSILON ≤ |e * n / ((1 + n) * (1 - 2 * n)) + e / (2 * (1 + n))|

/-- Validity domain for a (mu, nu) input. -/
def condMN (m n : ℝ) : Prop :=
  EPSILON ≤ |1 - 2 * n| ∧ EPSILON ≤ |3 * (1 - 2 * n)| ∧
    EPSILON ≤ |2 * m * n / (1 - 2 * n) + m| ∧ EPSILON ≤ |2 * (1 + n)|

/-- Validity domain for a (K, nu) input. -/
def condKN (k n : ℝ) : Prop :=
  EPSILON ≤ |2 * (1 + n)| ∧ EPSILON ≤ |1 + n| ∧ EPSILON ≤ |3 * (1 - 2 * n)| ∧
    EPSILON ≤ |3 * k * n / (1 + n) + 3 * k * (1 - 2 * n) / (2 * (1 + n))|

/-- Validity domain for a (K, mu) input. -/
def condKM (k m : ℝ) : Prop :=
  EPSILON ≤ |3 * k + m| ∧ EPSILON ≤ |6 * k + 2 * m| ∧
    EPSILON ≤ |k - 2 / 3 * m + m| ∧
    EPSILON ≤ |2 * (1 + (3 * k - 2 * m) / (6 * k + 2 * m))| ∧
    EPSILON ≤ |3 * (1 - 2 * ((3 * k - 2 * m) / (6 * k + 2 * m)))|

/-- Validity domain for an (E, mu) input. -/
def condEM (e m : ℝ) : Prop :=
  EPSILON ≤ |2 * m| ∧ EPSILON ≤ |3 * (3 * m - e)| ∧ EPSILON ≤ |3 * m - e| ∧
    EPSILON ≤ |m * (e - 2 * m) / (3 * m - e) + m| ∧
    EPSILON ≤ |2 * (1 + (e / (2 * m) - 1))| ∧
    EPSILON ≤ |3 * (1 - 2 * (e / (2 * m) - 1))|

/-- Validity domain for an (E, K) input. -/
def condEK (e k : ℝ) : Prop :=
  EPSILON ≤ |9 * k - e| ∧ EPSILON ≤ |6 * k| ∧
    EPSILON ≤ |3 * k * (3 * k - e) / (9 * k - e) + 3 * k * e / (9 * k - e)| ∧
    EPSILON ≤ |2 * (1 + (3 * k - e) / (6 * k))| ∧
    EPSILON ≤ |3 * (1 - 2 * ((3 * k - e) / (6 * k)))|

/-- Validity domain for a (lambda, nu) input. -/
def condLN (l n : ℝ) : Prop :=
  EPSILON ≤ |n| ∧ EPSILON ≤ |2 * n| ∧ EPSILON ≤ |3 * n| ∧
    EPSILON ≤ |l + l * (1 - 2 * n) / (2 * n)| ∧
    EPSILON ≤ |2 * (1 + n)| ∧ EPSILON ≤ |3 * (1 - 2 * n)|

/-- Validity domain for a (lambda, K) input. -/
def condLK (l k : ℝ) : Prop :=
  EPSILON ≤ |3 * k - l| ∧ EPSILON ≤ |l + 3 / 2 * (k - l)| ∧
    EPSILON ≤ |2 * (1 + l / (3 * k - l))| ∧
    EPSILON ≤ |3 * (1 - 2 * (l / (3 * k - l)))|

/-- Validity domain for a (lambda, E) input: whenever the quadratic has a
real solution, the denominators touched afterwards clear the epsilon. -/
def condLE (l e : ℝ) : Prop :=
  0 ≤ quadDisc l e →
    EPSILON ≤ |l + quadSel l e| ∧
      (0 < quadSel l e →
        EPSILON ≤ |2 * (1 + l / (2 * (l + quadSel l e)))| ∧
        EPSILON ≤ |3 * (1 - 2 * (l / (2 * (l + quadSel l e))))|)

/-- A valid two-parameter input: exactly two of the five elastic parameters
are supplied (no G alias, any density), with values inside the branch's
validity domain. -/
def validTwoParameterInput (p : MaterialParameters) : Prop :=
  (∃ l m rho, p = ⟨some l, some m, none, none, none, rho, none⟩ ∧ condLM l m) ∨
  (∃ e n rho, p = ⟨none, none, some e, none, some n, rho, none⟩ ∧ condEN e n) ∨
  (∃ m n rho, p = ⟨none, some m, none, none, some n, rho, none⟩ ∧ condMN m n) ∨
  (∃ k n rho, p = ⟨none, none, none, some k, some n, rho, none⟩ ∧ condKN k n) ∨
  (∃ k m rho, p = ⟨none, some m, none, some k, none, rho, none⟩ ∧ condKM k m) ∨
  (∃ e m rho, p = ⟨none, some m, some e, none, none, rho, none⟩ ∧ condEM e m) ∨
  (∃ e k rho, p = ⟨none, none, some e, some k, none, rho, none⟩ ∧ condEK e k) ∨
  (∃ l n rho, p = ⟨some l, none, none, none, some n, rho, none⟩ ∧ condLN l n) ∨
  (∃ l k rho, p = ⟨some l, none, none, some k, none, rho, none⟩ ∧ condLK l k) ∨
  (∃ l e rho, p = ⟨some l, none, some e, none, none, rho, none⟩ ∧ condLE l e)

/-- The ten parameter pairs the resolver can dispatch on. -/
inductive PairBranch where
  | LM
  | EN
  | MN
  | KN
  | KM
  | EM
  | EK
  | LN
  | LK
  | LE
deriving DecidableEq

/-- The presence test of each pair, exactly the source's branch conditions. -/
def pairMatches : PairBranch → MaterialParameters → Bool
  | .LM, r => r.lambda.isSome && r.mu.isSome
  | .EN, r => r.E.isSome && r.nu.isSome
  | .MN, r => r.mu.isSome && r.nu.isSome
  | .KN, r => r.K.isSome && r.nu.isSome
  | .KM, r => r.K.isSome && r.mu.isSome
  | .EM, r => r.E.isSome && r.mu.isSome
  | .EK, r => r.E.isSome && r.K.isSome
  | .LN, r => r.lambda.isSome && r.nu.isSome
  | .LK, r => r.lambda.isSome && r.K.isSome
  | .LE, r => r.lambda.isSome && r.E.isSome

/-- The fixed precedence order of the source's if-chain. -/
def pairOrder : List PairBranch :=
  [.LM, .EN, .MN, .KN, .KM, .EM, .EK, .LN, .LK, .LE]

/-- The first pair, in the fixed precedence order, whose two parameters are
both present. Written from the spec's description of the dispatch, to be
compared with the embedded if-chain. -/
def firstMatchingPair (r : MaterialParameters) : Option PairBranch :=
  List.find? (fun b => pairMatches b r) pairOrder

/-- The body the source executes for each pair. -/
def branchBody : PairBranch → MaterialParameters → CalculationResult
  | .LM, r0 => finishResult (runSteps steps_lambda_mu r0 [])
  | .EN, r0 => finishResult (runSteps steps_E_nu r0 [])
  | .MN, r0 => finishResult (runSteps steps_mu_nu r0 [])
  | .KN, r0 => finishResult (runSteps steps_K_nu r0 [])
  | .KM, r0 => finishResult (runSteps steps_K_mu r0 [])
  | .EM, r0 => finishResult (runSteps steps_E_mu r0 [])
  | .EK, r0 => finishResult (runSteps steps_E_K r0 [])
  | .LN, r0 => finishResult (runSteps steps_lambda_nu r0 [])
  | .LK, r0 => finishResult (runSteps steps_lambda_K r0 [])
  | .LE, r0 => branch_lambda_E r0

/-- The number of supplied elastic parameters, as the source counts them. -/
def countDefined (r : MaterialParameters) : Nat :=
  (List.filter id
    [r.lambda.isSome, r.mu.isSome, r.E.isSome, r.K.isSome, r.nu.isSome]).length

set_option maxHeartbeats 2000000 in
/-- The dispatch executes exactly the body of the first pair, in the fixed
precedence order, whose two parameters are present — for every record with at
least two of the five elastic parameters supplied. -/
lemma dispatch_first_match (r0 : MaterialParameters) (h2 : 2 ≤ countDefined r0) :
    ∃ b, firstMatchingPair r0 = some b ∧ resolveDispatch r0 = branchBody b r0 := by
  obtain ⟨pl, pm, pe, pk, pn, pr, pg⟩ := r0
  cases pl <;> cases pm <;> cases pe <;> cases pk <;> cases pn <;>
    first
    | (exfalso
       revert h2
       norm_num [countDefined, List.filter]
       done)
    | (refine ⟨.LM, ?_, ?_⟩ <;>
        simp [firstMatchingPair, pairOrder, pairMatches, resolveDispatch, branchBody,
          List.filter] <;> done)
    | (refine ⟨.EN, ?_, ?_⟩ <;>
        simp [firstMatchingPair, pairOrder, pairMatches, resolveDispatch, branchBody,
          List.filter] <;> done)
    | (refine ⟨.MN, ?_, ?_⟩ <;>
        simp [firstMatchingPair, pairOrder, pairMatches, resolveDispatch, branchBody,
          List.filter] <;> done)
    | (refine ⟨.KN, ?_, ?_⟩ <;>
        simp [firstMatchingPair, pairOrder, pairMatches, resolveDispatch, branchBody,
          List.filter] <;> done)
    | (refine ⟨.KM, ?_, ?_⟩ <;>
        simp [firstMatchingPair, pairOrder, pairMatches, resolveDispatch, branchBody,
          List.filter] <;> done)
    | (refine ⟨.EM, ?_, ?_⟩ <;>
        simp [firstMatchingPair, pairOrder, pairMatches, resolveDispatch, branchBody,
          List.filter] <;> done)
    | (refine ⟨.EK, ?_, ?_⟩ <;>
        simp [firstMatchingPair, pairOrder, pairMatches, resolveDispatch, branchBody,
          List.filter] <;> done)
    | (refine ⟨.LN, ?_, ?_⟩ <;>
        simp [firstMatchingPair, pairOrder, pairMatches, resolveDispatch, branchBody,
          List.filter] <;> done)
    | (refine ⟨.LK, ?_, ?_⟩ <;>
        simp [firstMatchingPair, pairOrder, pairMatches, resolveDispatch, branchBody,
          List.filter] <;> done)
    | (refine ⟨.LE, ?_, ?_⟩ <;>
        simp [firstMatchingPair, pairOrder, pairMatches, resolveDispatch, branchBody,
          List.filter] <;> done)

/-- Only the E check can fire on a record holding just lambda, mu and E, and
it is silent when the three values satisfy the E identity exactly. -/
lemma checkConsistency_lme_exact (l m e tol : ℝ) (rho G : Option ℝ) (htol : 0 ≤ tol)
    (hg1 : EPSILON ≤ |l + m|) (hE : e * (l + m) = m * (3 * l + 2 * m)) :
    checkConsistency ⟨some l, some m, some e, none, none, rho, G⟩ tol = .ok [] := by
  have hlm : l + m ≠ 0 := ne_zero_of_eps_le hg1
  have hEeq : m * (3 * l + 2 * m) / (l + m) = e := by
    rw [div_eq_iff hlm]
    linear_combination -hE
  simp only [checkConsistency, consistencyFindingE, consistencyFindingNu,
    consistencyFindingMu, consistencyFindingK, calculateE_from_lambda_mu,
    ok_of_eps_le hg1, hEeq, skip_zero_rel htol, List.append_nil]

/-- Resolver output from a valid (lambda, mu) input is self-consistent. -/
lemma c7_case_LM (l m : ℝ) (rho : Option ℝ) (hc : condLM l m) :
    checkConsistency
      (calculateAllParameters ⟨some l, some m, none, none, none, rho, none⟩).parameters
      defaultTolerance = .ok [] := by
  obtain ⟨h1, h2, h3, h4⟩ := hc
  rw [resolveLM_eval l m rho h1 h2]
  have hlm : l + m ≠ 0 := ne_zero_of_eps_le h1
  have hlm2 : 2 * (l + m) ≠ 0 := ne_zero_of_eps_le h2
  exact checkConsistency_coherent _ _ _ _ _ _ _ _ (by norm_num [defaultTolerance])
    h1 h3 h4 (div_mul_cancel₀ _ hlm) (div_mul_cancel₀ _ hlm2) rfl

/-- Resolver output from a valid (E, nu) input is self-consistent. -/
lemma c7_case_EN (e n : ℝ) (rho : Option ℝ) (hc : condEN e n) :
    checkConsistency
      (calculateAllParameters ⟨none, none, some e, none, some n, rho, none⟩).parameters
      defaultTolerance = .ok [] := by
  obtain ⟨h1, h2, h3, h4⟩ := hc
  rw [resolveEN_eval e n rho h1 h2 h3]
  have hprod : (1 + n) * (1 - 2 * n) ≠ 0 := ne_zero_of_eps_le h2
  have h1n : (1 : ℝ) + n ≠ 0 := fun h => hprod (by rw [h]; ring)
  have h12n : (1 : ℝ) - 2 * n ≠ 0 := fun h => hprod (by rw [h]; ring)
  refine checkConsistency_coherent _ _ _ _ _ _ _ _ (by norm_num [defaultTolerance])
    h4 h1 h3 ?_ ?_ ?_
  · field_simp
    ring
  · field_simp
    ring
  · field_simp
    ring

/-- Resolver output from a valid (mu, nu) input is self-consistent. -/
lemma c7_case_MN (m n : ℝ) (rho : Option ℝ) (hc : condMN m n) :
    checkConsistency
      (calculateAllParameters ⟨none, some m, none, none, some n, rho, none⟩).parameters
      defaultTolerance = .ok [] := by
  obtain ⟨h1, h2, h3, h4⟩ := hc
  rw [resolveMN_eval m n rho h1 h2]
  have h12n : (1 : ℝ) - 2 * n ≠ 0 := ne_zero_of_eps_le h1
  refine checkConsistency_coherent _ _ _ _ _ _ _ _ (by norm_num [defaultTolerance])
    h3 h4 h2 ?_ ?_ ?_
  · field_simp
    ring
  · field_simp
    ring
  · field_simp
    ring

/-- Resolver output from a valid (K, nu) input is self-consistent. -/
lemma c7_case_KN (k n : ℝ) (rho : Option ℝ) (hc : condKN k n) :
    checkConsistency
      (calculateAllParameters ⟨none, none, none, some k, some n, rho, none⟩).parameters
      defaultTolerance = .ok [] := by
  obtain ⟨h1, h2, h3, h4⟩ := hc
  rw [resolveKN_eval k n rho h1 h2]
  have h1n : (1 : ℝ) + n ≠ 0 := ne_zero_of_eps_le h2
  refine checkConsistency_coherent _ _ _ _ _ _ _ _ (by norm_num [defaultTolerance])
    h4 h1 h3 ?_ ?_ ?_
  · field_simp
    ring
  · field_simp
    ring
  · field_simp
    ring

/-- Resolver output from a valid (K, mu) input is self-consistent. -/
lemma c7_case_KM (k m : ℝ) (rho : Option ℝ) (hc : condKM k m) :
    checkConsistency
      (calculateAllParameters ⟨none, some m, none, some k, none, rho, none⟩).parameters
      defaultTolerance = .ok [] := by
  obtain ⟨h1, h2, h3, h4, h5⟩ := hc
  rw [resolveKM_eval k m rho h1 h2]
  have h3km : 3 * k + m ≠ 0 := ne_zero_of_eps_le h1
  have h6k2m : 6 * k + 2 * m ≠ 0 := ne_zero_of_eps_le h2
  refine checkConsistency_coherent _ _ _ _ _ _ _ _ (by norm_num [defaultTolerance])
    h3 h4 h5 ?_ ?_ ?_
  · field_simp
    ring
  · field_simp
    ring
  · ring

/-- Resolver output from a valid (E, mu) input is self-consistent. -/
lemma c7_case_EM (e m : ℝ) (rho : Option ℝ) (hc : condEM e m) :
    checkConsistency
      (calculateAllParameters ⟨none, some m, some e, none, none, rho, none⟩).parameters
      defaultTolerance = .ok [] := by
  obtain ⟨h1, h2, h3, h4, h5, h6⟩ := hc
  rw [resolveEM_eval e m rho h1 h2 h3]
  have h2m : 2 * m ≠ 0 := ne_zero_of_eps_le h1
  have hm : m ≠ 0 := fun h => h2m (by rw [h]; ring)
  have h3me : 3 * m - e ≠ 0 := ne_zero_of_eps_le h3
  refine checkConsistency_coherent _ _ _ _ _ _ _ _ (by norm_num [defaultTolerance])
    h4 h5 h6 ?_ ?_ ?_
  · field_simp
    ring
  · field_simp
    ring
  · field_simp
    ring

/-- Resolver output from a valid (E, K) input is self-consistent. -/
lemma c7_case_EK (e k : ℝ) (rho : Option ℝ) (hc : condEK e k) :
    checkConsistency
      (calculateAllParameters ⟨none, none, some e, some k, none, rho, none⟩).parameters
      defaultTolerance = .ok [] := by
  obtain ⟨h1, h2, h3, h4, h5⟩ := hc
  rw [resolveEK_eval e k rho h1 h2]
  have h9ke : 9 * k - e ≠ 0 := ne_zero_of_eps_le h1
  have h6k : 6 * k ≠ 0 := ne_zero_of_eps_le h2
  have hk : k ≠ 0 := fun h => h6k (by rw [h]; ring)
  refine checkConsistency_coherent _ _ _ _ _ _ _ _ (by norm_num [defaultTolerance])
    h3 h4 h5 ?_ ?_ ?_
  · field_simp
    ring
  · field_simp
    ring
  · field_simp
    ring

/-- Resolver output from a valid (lambda, nu) input is self-consistent. -/
lemma c7_case_LN (l n : ℝ) (rho : Option ℝ) (hc : condLN l n) :
    checkConsistency
      (calculateAllParameters ⟨some l, none, none, none, some n, rho, none⟩).parameters
      defaultTolerance = .ok [] := by
  obtain ⟨h1, h2, h3, h4, h5, h6⟩ := hc
  rw [resolveLN_eval l n rho h1 h2 h3]
  have hn : n ≠ 0 := ne_zero_of_eps_le h1
  refine checkConsistency_coherent _ _ _ _ _ _ _ _ (by norm_num [defaultTolerance])
    h4 h5 h6 ?_ ?_ ?_
  · field_simp
    ring
  · field_simp
    ring
  · field_simp
    ring

/-- Resolver output from a valid (lambda, K) input is self-consistent. -/
lemma c7_case_LK (l k : ℝ) (rho : Option ℝ) (hc : condLK l k) :
    checkConsistency
      (calculateAllParameters ⟨some l, none, none, some k, none, rho, none⟩).parameters
      defaultTolerance = .ok [] := by
  obtain ⟨h1, h2, h3, h4⟩ := hc
  rw [resolveLK_eval l k rho h1]
  have h3kl : 3 * k - l ≠ 0 := ne_zero_of_eps_le h1
  refine checkConsistency_coherent _ _ _ _ _ _ _ _ (by norm_num [defaultTolerance])
    h2 h3 h4 ?_ ?_ ?_
  · field_simp
    ring
  · have hs : 2 * (l + 3 / 2 * (k - l)) = 3 * k - l := by ring
    rw [hs, div_mul_cancel₀ _ h3kl]
  · ring

/-- Resolver output from a valid (lambda, E) input is self-consistent. -/
lemma c7_case_LE (l e : ℝ) (rho : Option ℝ) (hc : condLE l e) :
    checkConsistency
      (calculateAllParameters ⟨some l, none, some e, none, none, rho, none⟩).parameters
      defaultTolerance = .ok [] := by
  rw [resolve_lambda_E]
  by_cases hd : quadDisc l e < 0
  · rw [branchLE_negdisc _ _ _ hd]
    exact checkConsistency_mu_none _ _ rfl
  · obtain ⟨hg1, hrest⟩ := hc (not_lt.mp hd)
    have hroot := quadSel_is_root l e (not_lt.mp hd)
    have hlm : l + quadSel l e ≠ 0 := ne_zero_of_eps_le hg1
    have hE : e * (l + quadSel l e) = quadSel l e * (3 * l + 2 * quadSel l e) := by
      linear_combination -hroot
    by_cases hp : quadSel l e > 0
    · obtain ⟨hg3, hg4⟩ := hrest hp
      by_cases hgnu : EPSILON ≤ |2 * (l + quadSel l e)|
      · rw [branchLE_sel_pos_ok _ _ _ hd hp hgnu]
        refine checkConsistency_coherent _ _ _ _ _ _ _ _
          (by norm_num [defaultTolerance]) hg1 hg3 hg4 hE ?_ rfl
        exact div_mul_cancel₀ _ (ne_zero_of_eps_le hgnu)
      · rw [branchLE_sel_pos_guard _ _ _ hd hp (not_le.mp hgnu)]
        exact checkConsistency_lme_exact _ _ _ _ _ _
          (by norm_num [defaultTolerance]) hg1 hE
    · rw [branchLE_sel_npos _ _ _ hd hp]
      exact checkConsistency_lme_exact _ _ _ _ _ _
        (by norm_num [defaultTolerance]) hg1 hE

/-! ## Claims -/

/-- C6: validatePoissonsRatio returns the hard finiteness violation for every
non-finite value and the hard bounds violation for every value with
nu <= -1 or nu >= 0.5 (both boundary values included); every value in
(-1, 0) gets the soft auxetic advisory; every value in [0, 0.5) passes; and
any finding raised on a supplied nu appears in the validateAllParameters
output. -/
theorem c6_validate_poissons_ratio :
    (∀ v : JSNumber, jsNotFinite v = true →
        validatePoissonsRatio v = some ⟨"nu", nuFiniteMsg, none⟩) ∧
    (∀ x : ℝ, x ≤ -1 ∨ 0.5 ≤ x →
        validatePoissonsRatio (.num x) = some ⟨"nu", nuBoundsMsg, some nuBoundsSuggestion⟩) ∧
    (∀ x : ℝ, -1 < x → x < 0 →
        validatePoissonsRatio (.num x) = some ⟨"nu", nuAuxeticMsg, some nuAuxeticSuggestion⟩) ∧
    (∀ x : ℝ, 0 ≤ x → x < 0.5 → validatePoissonsRatio (.num x) = none) ∧
    (∀ (p : VParams) (v : JSNumber) (err : ValidationError), p.nu = some v →
        validatePoissonsRatio v = some err → err ∈ validateAllParameters p) := by
  refine ⟨?_, ?_, ?_, ?_, ?_⟩
  · intro v hv
    cases v <;> simp_all [jsNotFinite, validatePoissonsRatio]
  · intro x hx
    simp only [validatePoissonsRatio, if_pos hx]
  · intro x h1 h2
    have hx : ¬(x ≤ -1 ∨ 0.5 ≤ x) := by
      push_neg
      exact ⟨h1, lt_of_lt_of_le h2 (by norm_num)⟩
    simp only [validatePoissonsRatio, if_neg hx, if_pos h2]
  · intro x h1 h2
    have hx : ¬(x ≤ -1 ∨ 0.5 ≤ x) := by
      push_neg
      constructor
      · linarith
      · exact h2
    have hx2 : ¬x < 0 := not_lt.mpr h1
    simp only [validatePoissonsRatio, if_neg hx, if_neg hx2]
  · intro p v err hnu herr
    obtain ⟨pl, pm, pe, pk, pn, pr⟩ := p
    simp only [validateAllParameters]
    cases pn with
    | none => simp at hnu
    | some w =>
      have hw : w = v := by simpa using hnu
      subst hw
      cases pl <;> cases pm <;> cases pe <;> cases pk <;> cases pr <;>
        simp only [] <;>
        first
        | exact mem_pushFinding _ (by rw [herr]; exact mem_pushFinding_self _ _)
        | exact (by rw [herr]; exact mem_pushFinding_self _ _)

/-- C6 witness: the boundary values 0.5 and -1 are hard violations, -0.2 is
admissible with the auxetic advisory, 0.3 passes, and NaN is rejected. -/
theorem c6_witness :
    validatePoissonsRatio (.num (1 / 2)) = some ⟨"nu", nuBoundsMsg, some nuBoundsSuggestion⟩ ∧
    validatePoissonsRatio (.num (-1)) = some ⟨"nu", nuBoundsMsg, some nuBoundsSuggestion⟩ ∧
    validatePoissonsRatio (.num (-(1 / 5))) =
      some ⟨"nu", nuAuxeticMsg, some nuAuxeticSuggestion⟩ ∧
    validatePoissonsRatio (.num (3 / 10)) = none ∧
    validatePoissonsRatio .nan = some ⟨"nu", nuFiniteMsg, none⟩ ∧
    ⟨"nu", nuFiniteMsg, none⟩ ∈
      validateAllParameters ⟨none, none, none, none, some .nan, none⟩ :=
  ⟨c6_validate_poissons_ratio.2.1 _ (Or.inr (by norm_num)),
   c6_validate_poissons_ratio.2.1 _ (Or.inl (by norm_num)),
   c6_validate_poissons_ratio.2.2.1 _ (by norm_num) (by norm_num),
   c6_validate_poissons_ratio.2.2.2.1 _ (by norm_num) (by norm_num),
   c6_validate_poissons_ratio.1 _ rfl,
   c6_validate_poissons_ratio.2.2.2.2 _ _ _ rfl
     (c6_validate_poissons_ratio.1 _ rfl)⟩

/-- C9: when the supplied E is negative, the E cross-check divides the
absolute discrepancy by the signed supplied value, so the quotient is
nonpositive and never exceeds the (nonnegative) tolerance: no E finding is
produced no matter how large the discrepancy; the mu and K checks are silent
in the same way when the supplied mu, resp. K, is negative, and in that
situation the whole checker output reduces to whatever the nu check alone
produces. -/
theorem c9_negative_supplied_silence (p : MaterialParameters) (tol : ℝ) (htol : 0 ≤ tol) :
    (∀ l m e, p.lambda = some l → p.mu = some m → p.E = some e → e < 0 →
        EPSILON ≤ |l + m| → consistencyFindingE p tol = .ok []) ∧
    (∀ e n m, p.E = some e → p.nu = some n → p.mu = some m → m < 0 →
        EPSILON ≤ |2 * (1 + n)| → consistencyFindingMu p tol = .ok []) ∧
    (∀ k m n, p.K = some k → p.mu = some m → p.nu = some n → k < 0 →
        EPSILON ≤ |3 * (1 - 2 * n)| → consistencyFindingK p tol = .ok []) ∧
    (∀ l m e k n, p.lambda = some l → p.mu = some m → p.E = some e → p.K = some k →
        p.nu = some n → e < 0 → m < 0 → k < 0 → EPSILON ≤ |l + m| →
        EPSILON ≤ |2 * (1 + n)| → EPSILON ≤ |3 * (1 - 2 * n)| →
        checkConsistency p tol = consistencyFindingNu p tol) := by
  have hE : ∀ l m e, p.lambda = some l → p.mu = some m → p.E = some e → e < 0 →
      EPSILON ≤ |l + m| → consistencyFindingE p tol = .ok [] := by
    intro l m e h1 h2 h3 he hg
    simp only [consistencyFindingE, h1, h2, h3, calculateE_from_lambda_mu,
      ok_of_eps_le hg, rel_check_skip he htol]
  have hMu : ∀ e n m, p.E = some e → p.nu = some n → p.mu = some m → m < 0 →
      EPSILON ≤ |2 * (1 + n)| → consistencyFindingMu p tol = .ok [] := by
    intro e n m h1 h2 h3 hm hg
    simp only [consistencyFindingMu, h1, h2, h3, calculateMu_from_E_nu,
      ok_of_eps_le hg, rel_check_skip hm htol]
  have hK : ∀ k m n, p.K = some k → p.mu = some m → p.nu = some n → k < 0 →
      EPSILON ≤ |3 * (1 - 2 * n)| → consistencyFindingK p tol = .ok [] := by
    intro k m n h1 h2 h3 hk hg
    simp only [consistencyFindingK, h1, h2, h3, calculateK_from_mu_nu,
      ok_of_eps_le hg, rel_check_skip hk htol]
  refine ⟨hE, hMu, hK, ?_⟩
  intro l m e k n h1 h2 h3 h4 h5 he hm hk hg1 hg3 hg4
  rw [checkConsistency, hE l m e h1 h2 h3 he hg1]
  cases hNu : consistencyFindingNu p tol with
  | error msg => rfl
  | ok l2 =>
    rw [hMu e n m h3 h5 h2 hm hg3, hK k m n h4 h2 h5 hk hg4]
    simp

/-- C9 witness: lambda 1, mu -2, E -1, K -1, nu 0.3 — every modulus check is
silent even though the supplied values are wildly inconsistent. -/
theorem c9_witness :
    consistencyFindingE
        ⟨some 1, some (-2), some (-1), some (-1), some (3 / 10), none, none⟩
        defaultTolerance = .ok [] ∧
    consistencyFindingMu
        ⟨some 1, some (-2), some (-1), some (-1), some (3 / 10), none, none⟩
        defaultTolerance = .ok [] ∧
    consistencyFindingK
        ⟨some 1, some (-2), some (-1), some (-1), some (3 / 10), none, none⟩
        defaultTolerance = .ok [] ∧
    checkConsistency
        ⟨some 1, some (-2), some (-1), some (-1), some (3 / 10), none, none⟩
        defaultTolerance =
      consistencyFindingNu
        ⟨some 1, some (-2), some (-1), some (-1), some (3 / 10), none, none⟩
        defaultTolerance := by
  have h := c9_negative_supplied_silence
    ⟨some 1, some (-2), some (-1), some (-1), some (3 / 10), none, none⟩
    defaultTolerance (by norm_num [defaultTolerance])
  exact ⟨h.1 1 (-2) (-1) rfl rfl rfl (by norm_num) (by norm_num [EPSILON]),
    h.2.1 (-1) (3 / 10) (-2) rfl rfl rfl (by norm_num)
      (le_trans (by norm_num [EPSILON]) (le_abs_self _)),
    h.2.2.1 (-1) (-2) (3 / 10) rfl rfl rfl (by norm_num)
      (le_trans (by norm_num [EPSILON]) (le_abs_self _)),
    h.2.2.2 1 (-2) (-1) (-1) (3 / 10) rfl rfl rfl rfl rfl (by norm_num) (by norm_num)
      (by norm_num) (by norm_num [EPSILON])
      (le_trans (by norm_num [EPSILON]) (le_abs_self _))
      (le_trans (by norm_num [EPSILON]) (le_abs_self _))⟩

/-- C1 counterexample: with lambda = 1, mu = -1 and E = 1 supplied, the
checker does not return a findings list: the division-by-zero failure of the
internal E recomputation escapes `checkConsistency` uncaught. -/
theorem c1_counterexample :
    checkConsistency ⟨some 1, some (-1), some 1, none, none, none, none⟩ defaultTolerance =
      .error "Division by zero: lambda + mu = 0" := by
  rw [checkConsistency]
  have h1 : consistencyFindingE ⟨some 1, some (-1), some 1, none, none, none, none⟩
      defaultTolerance = .error "Division by zero: lambda + mu = 0" := by
    simp only [consistencyFindingE, calculateE_from_lambda_mu]
    rw [error_of_lt_eps (by norm_num [EPSILON])]
  rw [h1]

/-- C1 (amended): `calculateAllParameters` and `validateAllParameters` are
total, but `checkConsistency` has no exception barrier: it aborts with an
error exactly when one of its four recomputations is invoked on a supplied
triple whose denominator guard trips — lambda, mu, E supplied with
the magnitude of lambda + mu below 1e-12; lambda, mu, nu supplied with
2(lambda + mu) below it; E, nu, mu supplied with 2(1 + nu) below it; or
K, mu, nu supplied with 3(1 - 2 nu) below it. -/
theorem c1_checker_error_characterization (p : MaterialParameters) (tol : ℝ) :
    isErrorResult (checkConsistency p tol) = true ↔
      (p.lambda.isSome = true ∧ p.mu.isSome = true ∧ p.E.isSome = true ∧
        |p.lambda.getD 0 + p.mu.getD 0| < EPSILON) ∨
      (p.lambda.isSome = true ∧ p.mu.isSome = true ∧ p.nu.isSome = true ∧
        |2 * (p.lambda.getD 0 + p.mu.getD 0)| < EPSILON) ∨
      (p.E.isSome = true ∧ p.nu.isSome = true ∧ p.mu.isSome = true ∧
        |2 * (1 + p.nu.getD 0)| < EPSILON) ∨
      (p.K.isSome = true ∧ p.mu.isSome = true ∧ p.nu.isSome = true ∧
        |3 * (1 - 2 * p.nu.getD 0)| < EPSILON) := by
  rw [checkConsistency_error_split, findingE_error_iff, findingNu_error_iff,
    findingMu_error_iff, findingK_error_iff]

/-- C3 counterexample: a record whose supplied nu disagrees with the nu
implied by (lambda, mu) by a relative error of about one half — far beyond
the default tolerance — yields no finding, because the nu check compares the
absolute error, not the relative one. -/
theorem c3_counterexample :
    checkConsistency ⟨some (2 / 10 ^ 7), some 1, none, none, some (2 / 10 ^ 7), none, none⟩
        defaultTolerance = .ok [] ∧
    defaultTolerance <
      |(2 / 10 ^ 7 : ℝ) / (2 * (2 / 10 ^ 7 + 1)) - 2 / 10 ^ 7| / (2 / 10 ^ 7) := by
  constructor
  · have hval : ¬(|(2 / 10 ^ 7 : ℝ) / (2 * (2 / 10 ^ 7 + 1)) - 2 / 10 ^ 7| >
        defaultTolerance) := by
      refine not_lt.mpr ?_
      rw [abs_le, defaultTolerance]
      constructor <;> norm_num
    simp only [checkConsistency, consistencyFindingE, consistencyFindingNu,
      consistencyFindingMu, consistencyFindingK, calculateNu_from_lambda_mu]
    rw [ok_of_eps_le (le_trans (by norm_num [EPSILON]) (le_abs_self _))]
    simp [hval]
  · rw [abs_of_nonpos (by norm_num), defaultTolerance]
    norm_num

/-- C3 (amended): with the relevant triple supplied and its recomputation
guard clear of 1e-12, the E, mu and K checks produce their finding exactly
when Math.abs(recomputed - supplied) / supplied exceeds the tolerance, while
the nu check produces its finding exactly when the absolute error
Math.abs(recomputed nu - supplied nu) exceeds the tolerance; with all five
fields supplied the checker returns the concatenation of the four checks in
that order. -/
theorem c3_amended_check_semantics (p : MaterialParameters) (tol : ℝ) :
    (∀ l m e, p.lambda = some l → p.mu = some m → p.E = some e → EPSILON ≤ |l + m| →
        consistencyFindingE p tol =
          .ok (if |m * (3 * l + 2 * m) / (l + m) - e| / e > tol
            then [msgEInconsistent] else [])) ∧
    (∀ l m n, p.lambda = some l → p.mu = some m → p.nu = some n →
        EPSILON ≤ |2 * (l + m)| →
        consistencyFindingNu p tol =
          .ok (if |l / (2 * (l + m)) - n| > tol then [msgNuInconsistent] else [])) ∧
    (∀ e n m, p.E = some e → p.nu = some n → p.mu = some m → EPSILON ≤ |2 * (1 + n)| →
        consistencyFindingMu p tol =
          .ok (if |e / (2 * (1 + n)) - m| / m > tol then [msgMuInconsistent] else [])) ∧
    (∀ k m n, p.K = some k → p.mu = some m → p.nu = some n →
        EPSILON ≤ |3 * (1 - 2 * n)| →
        consistencyFindingK p tol =
          .ok (if |2 * m * (1 + n) / (3 * (1 - 2 * n)) - k| / k > tol
            then [msgKInconsistent] else [])) ∧
    (∀ l m e k n, p.lambda = some l → p.mu = some m → p.E = some e → p.K = some k →
        p.nu = some n → EPSILON ≤ |l + m| → EPSILON ≤ |2 * (l + m)| →
        EPSILON ≤ |2 * (1 + n)| → EPSILON ≤ |3 * (1 - 2 * n)| →
        checkConsistency p tol =
          .ok ((if |m * (3 * l + 2 * m) / (l + m) - e| / e > tol
              then [msgEInconsistent] else []) ++
            (if |l / (2 * (l + m)) - n| > tol then [msgNuInconsistent] else []) ++
            (if |e / (2 * (1 + n)) - m| / m > tol then [msgMuInconsistent] else []) ++
            (if |2 * m * (1 + n) / (3 * (1 - 2 * n)) - k| / k > tol
              then [msgKInconsistent] else []))) := by
  have hE : ∀ l m e, p.lambda = some l → p.mu = some m → p.E = some e →
      EPSILON ≤ |l + m| → consistencyFindingE p tol =
        .ok (if |m * (3 * l + 2 * m) / (l + m) - e| / e > tol
          then [msgEInconsistent] else []) := by
    intro l m e h1 h2 h3 hg
    simp only [consistencyFindingE, h1, h2, h3, calculateE_from_lambda_mu, ok_of_eps_le hg]
  have hNu : ∀ l m n, p.lambda = some l → p.mu = some m → p.nu = some n →
      EPSILON ≤ |2 * (l + m)| → consistencyFindingNu p tol =
        .ok (if |l / (2 * (l + m)) - n| > tol then [msgNuInconsistent] else []) := by
    intro l m n h1 h2 h3 hg
    simp only [consistencyFindingNu, h1, h2, h3, calculateNu_from_lambda_mu, ok_of_eps_le hg]
  have hMu : ∀ e n m, p.E = some e → p.nu = some n → p.mu = some m →
      EPSILON ≤ |2 * (1 + n)| → consistencyFindingMu p tol =
        .ok (if |e / (2 * (1 + n)) - m| / m > tol then [msgMuInconsistent] else []) := by
    intro e n m h1 h2 h3 hg
    simp only [consistencyFindingMu, h1, h2, h3, calculateMu_from_E_nu, ok_of_eps_le hg]
  have hK : ∀ k m n, p.K = some k → p.mu = some m → p.nu = some n →
      EPSILON ≤ |3 * (1 - 2 * n)| → consistencyFindingK p tol =
        .ok (if |2 * m * (1 + n) / (3 * (1 - 2 * n)) - k| / k > tol
          then [msgKInconsistent] else []) := by
    intro k m n h1 h2 h3 hg
    simp only [consistencyFindingK, h1, h2, h3, calculateK_from_mu_nu, ok_of_eps_le hg]
  refine ⟨hE, hNu, hMu, hK, ?_⟩
  intro l m e k n h1 h2 h3 h4 h5 hg1 hg2 hg3 hg4
  rw [checkConsistency, hE l m e h1 h2 h3 hg1, hNu l m n h1 h2 h5 hg2,
    hMu e n m h3 h5 h2 hg3, hK k m n h4 h2 h5 hg4]

/-- C3 witness: a record resolved from lambda = mu = 1 passes the nu check
with zero absolute error. -/
theorem c3_amended_witness :
    consistencyFindingNu ⟨some 1, some 1, none, none, some (1 / 4), none, none⟩
      defaultTolerance = .ok [] := by
  have h := (c3_amended_check_semantics
      ⟨some 1, some 1, none, none, some (1 / 4), none, none⟩ defaultTolerance).2.1
    1 1 (1 / 4) rfl rfl rfl (le_trans (by norm_num [EPSILON]) (le_abs_self _))
  rw [h, if_neg (not_lt.mpr (by
    rw [abs_le, defaultTolerance]
    constructor <;> norm_num))]

set_option maxHeartbeats 1000000 in
/-- Every branch of the dispatch preserves the fields that are already set
when it starts. -/
lemma dispatch_preserves_supplied (r0 : MaterialParameters) (f : Param) (v : ℝ)
    (h0 : getP f r0 = some v) :
    getP f (resolveDispatch r0).parameters = some v := by
  simp only [resolveDispatch]
  split_ifs with hc1 hc2 hc3 hc4 hc5 hc6 hc7 hc8 hc9 hc10 hc11
  · exact h0
  · rw [finishResult_parameters]; exact runSteps_preserves _ _ _ _ _ h0
  · rw [finishResult_parameters]; exact runSteps_preserves _ _ _ _ _ h0
  · rw [finishResult_parameters]; exact runSteps_preserves _ _ _ _ _ h0
  · rw [finishResult_parameters]; exact runSteps_preserves _ _ _ _ _ h0
  · rw [finishResult_parameters]; exact runSteps_preserves _ _ _ _ _ h0
  · rw [finishResult_parameters]; exact runSteps_preserves _ _ _ _ _ h0
  · rw [finishResult_parameters]; exact runSteps_preserves _ _ _ _ _ h0
  · rw [finishResult_parameters]; exact runSteps_preserves _ _ _ _ _ h0
  · rw [finishResult_parameters]; exact runSteps_preserves _ _ _ _ _ h0
  · refine branch_lambda_E_preserves r0 f v h0 ?_
    rcases hmn : r0.mu with _ | w
    · rfl
    · exfalso
      have h11 := hc11
      simp only [Bool.and_eq_true] at h11
      apply hc2
      rw [h11.1, hmn]
      rfl
  · exact h0

/-- Any field of the five elastic parameters that the caller supplies comes
back with the same value from the resolver. -/
lemma resolver_preserves_supplied (input : MaterialParameters) (f : Param) (v : ℝ)
    (h : getP f input = some v) :
    getP f (calculateAllParameters input).parameters = some v := by
  rw [calculateAllParameters]
  exact dispatch_preserves_supplied _ f v (normalize_preserves input f v h)

set_option maxHeartbeats 1000000 in
/-- No branch of the dispatch touches the density field. -/
lemma dispatch_rho (r0 : MaterialParameters) :
    (resolveDispatch r0).parameters.rho = r0.rho := by
  simp only [resolveDispatch]
  split_ifs <;>
    first
    | rfl
    | (rw [finishResult_parameters, runSteps_rho])
    | exact branch_lambda_E_rho r0

/-- C8: the resolver agrees with its input on every field the input defines —
each of lambda, mu, E, K, nu, when supplied, comes back unchanged (derivation
steps only fill still-unset fields), and rho is passed through exactly:
present if and only if supplied, with the supplied value, never inferred. -/
theorem c8_inputs_preserved (input : MaterialParameters) :
    (∀ v, input.lambda = some v →
        (calculateAllParameters input).parameters.lambda = some v) ∧
    (∀ v, input.mu = some v → (calculateAllParameters input).parameters.mu = some v) ∧
    (∀ v, input.E = some v → (calculateAllParameters input).parameters.E = some v) ∧
    (∀ v, input.K = some v → (calculateAllParameters input).parameters.K = some v) ∧
    (∀ v, input.nu = some v → (calculateAllParameters input).parameters.nu = some v) ∧
    (calculateAllParameters input).parameters.rho = input.rho := by
  refine ⟨fun v hv => resolver_preserves_supplied input .lam v hv,
    fun v hv => resolver_preserves_supplied input .mu v hv,
    fun v hv => resolver_preserves_supplied input .E v hv,
    fun v hv => resolver_preserves_supplied input .K v hv,
    fun v hv => resolver_preserves_supplied input .nu v hv, ?_⟩
  rw [calculateAllParameters, dispatch_rho, normalize_rho]

/-- C8 witness: an over-specified record keeps its supplied lambda, mu, nu
and density. -/
theorem c8_witness :
    (calculateAllParameters
        ⟨some 1, some 2, none, none, some (1 / 8), some 7850, none⟩).parameters.lambda =
      some 1 ∧
    (calculateAllParameters
        ⟨some 1, some 2, none, none, some (1 / 8), some 7850, none⟩).parameters.mu =
      some 2 ∧
    (calculateAllParameters
        ⟨some 1, some 2, none, none, some (1 / 8), some 7850, none⟩).parameters.nu =
      some (1 / 8) ∧
    (calculateAllParameters
        ⟨some 1, some 2, none, none, some (1 / 8), some 7850, none⟩).parameters.rho =
      some 7850 :=
  ⟨(c8_inputs_preserved _).1 1 rfl, (c8_inputs_preserved _).2.1 2 rfl,
    (c8_inputs_preserved _).2.2.2.2.1 (1 / 8) rfl, (c8_inputs_preserved _).2.2.2.2.2⟩

/-- C2 counterexample: lambda = 0, E = 1e-13 reaches the (lambda, E) branch,
the discriminant is E^2 >= 0, the selected root mu = E/2 = 5e-14 is strictly
positive, and yet nu is not computed: the nu recomputation trips the 1e-12
guard, so "computed if and only if mu > 0" fails in the forward direction. -/
theorem c2_counterexample :
    (calculateAllParameters
        ⟨some 0, none, some (1 / 10 ^ 13), none, none, none, none⟩).parameters.mu =
      some ((1 : ℝ) / (2 * 10 ^ 13)) ∧
    (0 : ℝ) < 1 / (2 * 10 ^ 13) ∧
    (calculateAllParameters
        ⟨some 0, none, some (1 / 10 ^ 13), none, none, none, none⟩).parameters.nu =
      none := by
  have hq : quadDisc 0 (1 / 10 ^ 13) = ((1 : ℝ) / 10 ^ 13) ^ 2 := by
    rw [quadDisc]
    ring
  have hs : Real.sqrt (quadDisc 0 (1 / 10 ^ 13)) = 1 / 10 ^ 13 := by
    rw [hq]
    exact Real.sqrt_sq (by norm_num)
  have hr1 : quadRoot1 0 (1 / 10 ^ 13) = 1 / (2 * 10 ^ 13) := by
    rw [quadRoot1, hs]
    norm_num
  have hsel : quadSel 0 (1 / 10 ^ 13) = 1 / (2 * 10 ^ 13) := by
    rw [quadSel, hr1, if_pos (by norm_num : ((1 : ℝ) / (2 * 10 ^ 13)) > 0)]
  have hd' : ¬quadDisc 0 (1 / 10 ^ 13) < 0 := by
    rw [hq]
    exact not_lt.mpr (by positivity)
  have hp : quadSel 0 (1 / 10 ^ 13) > 0 := by
    rw [hsel]
    norm_num
  have hg : |2 * ((0 : ℝ) + quadSel 0 (1 / 10 ^ 13))| < EPSILON := by
    rw [hsel, abs_of_pos (by norm_num), EPSILON]
    norm_num
  rw [resolve_lambda_E, branchLE_sel_pos_guard _ _ _ hd' hp hg]
  exact ⟨by rw [hsel], by norm_num, rfl⟩

/-- C2 (amended): in the (lambda, E) branch a negative discriminant appends
the no-real-solution warning and leaves mu, nu, K unset; a nonnegative
discriminant stores the selected root (mu1 when positive, else mu2) in mu,
that root satisfies the quadratic exactly, and nu and K are then computed
from the resolved (lambda, mu) pair via nu = lambda/(2(lambda+mu)) and
K = lambda + (2/3)mu if and only if the selected mu is strictly positive AND
the nu recomputation guard |2(lambda+mu)| >= 1e-12 holds. -/
theorem c2_amended_quadratic_branch (l e : ℝ) :
    (quadDisc l e < 0 →
      calculateAllParameters ⟨some l, none, some e, none, none, none, none⟩ =
        ⟨⟨some l, none, some e, none, none, none, none⟩, [], [noRealSolutionMsg]⟩) ∧
    (0 ≤ quadDisc l e →
      2 * quadSel l e * quadSel l e + (3 * l - e) * quadSel l e - e * l = 0 ∧
      (calculateAllParameters
          ⟨some l, none, some e, none, none, none, none⟩).parameters.mu =
        some (quadSel l e) ∧
      (0 < quadSel l e → EPSILON ≤ |2 * (l + quadSel l e)| →
        (calculateAllParameters
            ⟨some l, none, some e, none, none, none, none⟩).parameters.nu =
          some (l / (2 * (l + quadSel l e))) ∧
        (calculateAllParameters
            ⟨some l, none, some e, none, none, none, none⟩).parameters.K =
          some (l + 2 / 3 * quadSel l e)) ∧
      (¬(0 < quadSel l e ∧ EPSILON ≤ |2 * (l + quadSel l e)|) →
        (calculateAllParameters
            ⟨some l, none, some e, none, none, none, none⟩).parameters.nu = none ∧
        (calculateAllParameters
            ⟨some l, none, some e, none, none, none, none⟩).parameters.K = none)) := by
  constructor
  · intro hd
    rw [resolve_lambda_E, branchLE_negdisc _ _ _ hd]
  · intro hd
    have hd' : ¬quadDisc l e < 0 := not_lt.mpr hd
    refine ⟨quadSel_is_root l e hd, ?_, ?_, ?_⟩
    · by_cases hp : quadSel l e > 0
      · by_cases hg : EPSILON ≤ |2 * (l + quadSel l e)|
        · rw [resolve_lambda_E, branchLE_sel_pos_ok _ _ _ hd' hp hg]
        · rw [resolve_lambda_E, branchLE_sel_pos_guard _ _ _ hd' hp (not_le.mp hg)]
      · rw [resolve_lambda_E, branchLE_sel_npos _ _ _ hd' hp]
    · intro hp hg
      rw [resolve_lambda_E, branchLE_sel_pos_ok _ _ _ hd' hp hg]
      exact ⟨rfl, rfl⟩
    · intro hng
      by_cases hp : quadSel l e > 0
      · have hg : |2 * (l + quadSel l e)| < EPSILON := by
          by_contra hgg
          exact hng ⟨hp, not_lt.mp hgg⟩
        rw [resolve_lambda_E, branchLE_sel_pos_guard _ _ _ hd' hp hg]
        exact ⟨rfl, rfl⟩
      · rw [resolve_lambda_E, branchLE_sel_npos _ _ _ hd' hp]
        exact ⟨rfl, rfl⟩

/-- C2 witness: lambda = 1, E = 5/2 gives discriminant 81/4, selected root 1,
and nu = 1/4, K = 5/3 are derived. -/
theorem c2_amended_witness :
    (calculateAllParameters
        ⟨some 1, none, some (5 / 2), none, none, none, none⟩).parameters.nu =
      some ((1 : ℝ) / 4) ∧
    (calculateAllParameters
        ⟨some 1, none, some (5 / 2), none, none, none, none⟩).parameters.K =
      some ((5 : ℝ) / 3) := by
  have hq : quadDisc 1 (5 / 2) = ((9 : ℝ) / 2) ^ 2 := by
    rw [quadDisc]
    norm_num
  have hs : Real.sqrt (quadDisc 1 (5 / 2)) = 9 / 2 := by
    rw [hq]
    exact Real.sqrt_sq (by norm_num)
  have hsel : quadSel 1 (5 / 2) = 1 := by
    rw [quadSel, quadRoot1, hs]
    norm_num
  have h := (c2_amended_quadratic_branch 1 (5 / 2)).2 (by rw [hq]; positivity)
  have hnk := h.2.2.1 (by rw [hsel]; norm_num)
    (by rw [hsel]; exact le_trans (by norm_num [EPSILON]) (le_abs_self _))
  refine ⟨?_, ?_⟩
  · rw [hnk.1, hsel]
    norm_num
  · rw [hnk.2, hsel]
    norm_num

/-- C10 counterexample: lambda = E = 1e-20 are both strictly positive and the
selected root is positive, yet nu and K are NOT set: the derived mu is so
small that the nu recomputation guard |2(lambda+mu)| < 1e-12 trips, so
"nu and K are always set in this case" fails. -/
theorem c10_counterexample :
    (0 : ℝ) < 1 / 10 ^ 20 ∧
    (calculateAllParameters
        ⟨some (1 / 10 ^ 20), none, some (1 / 10 ^ 20), none, none, none, none⟩).parameters.nu =
      none ∧
    (calculateAllParameters
        ⟨some (1 / 10 ^ 20), none, some (1 / 10 ^ 20), none, none, none, none⟩).parameters.K =
      none := by
  have hl : (0 : ℝ) < 1 / 10 ^ 20 := by norm_num
  have hd' : ¬quadDisc (1 / 10 ^ 20) (1 / 10 ^ 20) < 0 :=
    not_lt.mpr (quadDisc_pos hl hl).le
  have hp2 : 0 < quadRoot1 (1 / 10 ^ 20) (1 / 10 ^ 20) := quadRoot1_pos hl hl
  have hqd : quadDisc (1 / 10 ^ 20) (1 / 10 ^ 20) = 12 * ((1 : ℝ) / 10 ^ 20) ^ 2 := by
    rw [quadDisc]
    ring
  have hsq : Real.sqrt (quadDisc (1 / 10 ^ 20) (1 / 10 ^ 20)) < 4 * (1 / 10 ^ 20) := by
    rw [hqd]
    refine (Real.sqrt_lt' (by norm_num)).mpr ?_
    norm_num
  have hub : quadRoot1 (1 / 10 ^ 20) (1 / 10 ^ 20) < (1 / 10 ^ 20) / 2 := by
    rw [quadRoot1]
    rw [div_lt_iff (by norm_num : (0 : ℝ) < 2 * 2)]
    linarith
  have hp : quadSel (1 / 10 ^ 20) (1 / 10 ^ 20) > 0 := by
    rw [quadSel_eq_root1 hl hl]
    exact hp2
  have hg : |2 * ((1 : ℝ) / 10 ^ 20 + quadSel (1 / 10 ^ 20) (1 / 10 ^ 20))| < EPSILON := by
    rw [quadSel_eq_root1 hl hl, abs_of_pos (by linarith)]
    have h3 : (3 : ℝ) * (1 / 10 ^ 20) < EPSILON := by
      rw [EPSILON]
      norm_num
    linarith
  refine ⟨hl, ?_, ?_⟩ <;>
    rw [resolve_lambda_E, branchLE_sel_pos_guard _ _ _ hd' hp hg]

/-- C10 (amended): whenever the (lambda, E) branch runs with lambda > 0 and
E > 0 the discriminant (3 lambda - E)^2 + 8 E lambda is strictly positive, so
the no-real-solution warning is unreachable; the product of the two roots is
-E lambda / 2 < 0, the larger root mu1 is strictly positive and is the one
selected, and nu and K are then set provided the nu recomputation guard
|2(lambda + mu1)| >= 1e-12 additionally holds. -/
theorem c10_amended_positive_inputs (l e : ℝ) (hl : 0 < l) (he : 0 < e) :
    0 < quadDisc l e ∧
    quadRoot1 l e * quadRoot2 l e = -(e * l) / 2 ∧
    0 < quadRoot1 l e ∧
    quadSel l e = quadRoot1 l e ∧
    (calculateAllParameters
        ⟨some l, none, some e, none, none, none, none⟩).parameters.mu =
      some (quadRoot1 l e) ∧
    noRealSolutionMsg ∉
      (calculateAllParameters ⟨some l, none, some e, none, none, none, none⟩).warnings ∧
    (EPSILON ≤ |2 * (l + quadRoot1 l e)| →
      (calculateAllParameters
          ⟨some l, none, some e, none, none, none, none⟩).parameters.nu =
        some (l / (2 * (l + quadRoot1 l e))) ∧
      (calculateAllParameters
          ⟨some l, none, some e, none, none, none, none⟩).parameters.K =
        some (l + 2 / 3 * quadRoot1 l e)) := by
  have hd := quadDisc_pos hl he
  have hd' : ¬quadDisc l e < 0 := not_lt.mpr hd.le
  have hr1 := quadRoot1_pos hl he
  have hsel := quadSel_eq_root1 hl he
  have hprod : quadRoot1 l e * quadRoot2 l e = -(e * l) / 2 := by
    have hs : Real.sqrt (quadDisc l e) * Real.sqrt (quadDisc l e) = quadDisc l e :=
      Real.mul_self_sqrt hd.le
    rw [quadDisc] at hs
    rw [quadRoot1, quadRoot2, quadDisc]
    linear_combination (-1 / 16 : ℝ) * hs
  have hp : quadSel l e > 0 := by
    rw [hsel]
    exact hr1
  refine ⟨hd, hprod, hr1, hsel, ?_, ?_, ?_⟩
  · by_cases hg : EPSILON ≤ |2 * (l + quadSel l e)|
    · rw [resolve_lambda_E, branchLE_sel_pos_ok _ _ _ hd' hp hg, ← hsel]
    · rw [resolve_lambda_E, branchLE_sel_pos_guard _ _ _ hd' hp (not_le.mp hg), ← hsel]
  · by_cases hg : EPSILON ≤ |2 * (l + quadSel l e)|
    · rw [resolve_lambda_E, branchLE_sel_pos_ok _ _ _ hd' hp hg]
      simp [noRealSolutionMsg]
    · rw [resolve_lambda_E, branchLE_sel_pos_guard _ _ _ hd' hp (not_le.mp hg)]
      simp [noRealSolutionMsg]
  · intro hg
    rw [← hsel] at hg
    rw [resolve_lambda_E, branchLE_sel_pos_ok _ _ _ hd' hp hg, hsel]
    exact ⟨rfl, rfl⟩

/-- C10 witness: lambda = E = 1 — positive discriminant, positive selected
root, and nu and K are derived since the guard clears. -/
theorem c10_amended_witness :
    0 < quadDisc 1 1 ∧
    (calculateAllParameters
        ⟨some 1, none, some 1, none, none, none, none⟩).parameters.mu =
      some (quadRoot1 1 1) ∧
    noRealSolutionMsg ∉
      (calculateAllParameters ⟨some 1, none, some 1, none, none, none, none⟩).warnings ∧
    (calculateAllParameters
        ⟨some 1, none, some 1, none, none, none, none⟩).parameters.nu =
      some ((1 : ℝ) / (2 * (1 + quadRoot1 1 1))) := by
  have h := c10_amended_positive_inputs 1 1 (by norm_num) (by norm_num)
  have hg : EPSILON ≤ |2 * ((1 : ℝ) + quadRoot1 1 1)| := by
    have hr1 := h.2.2.1
    rw [abs_of_pos (by linarith)]
    have : EPSILON ≤ 2 := by
      rw [EPSILON]
      norm_num
    linarith
  exact ⟨h.1, h.2.2.2.2.1, h.2.2.2.2.2.1, (h.2.2.2.2.2.2 hg).1⟩

/-- C7 counterexample: lambda = 1e15, mu = 1e-3 is a physically admissible
two-parameter input whose branch denominator lambda + mu is far above the
1e-12 epsilon, yet the checker on the resolver's output does NOT return the
empty list: the resolved nu is so close to 0.5 that the K recomputation guard
3(1 - 2 nu) = 3 mu/(lambda + mu) is below 1e-12 and the checker throws. -/
theorem c7_counterexample :
    (0 : ℝ) < 10 ^ 15 ∧ (0 : ℝ) < 1 / 10 ^ 3 ∧
    EPSILON ≤ |(10 ^ 15 : ℝ) + 1 / 10 ^ 3| ∧
    checkConsistency
      (calculateAllParameters
        ⟨some (10 ^ 15), some (1 / 10 ^ 3), none, none, none, none, none⟩).parameters
      defaultTolerance = .error "Division by zero: 3(1 - 2 nu) = 0" := by
  have hg1 : EPSILON ≤ |(10 ^ 15 : ℝ) + 1 / 10 ^ 3| :=
    le_trans (by norm_num [EPSILON]) (le_abs_self _)
  have hg2 : EPSILON ≤ |2 * ((10 ^ 15 : ℝ) + 1 / 10 ^ 3)| :=
    le_trans (by norm_num [EPSILON]) (le_abs_self _)
  refine ⟨by norm_num, by norm_num, hg1, ?_⟩
  rw [resolveLM_eval _ _ none hg1 hg2]
  have hgMu : EPSILON ≤ |2 * (1 + (10 ^ 15 : ℝ) / (2 * (10 ^ 15 + 1 / 10 ^ 3)))| :=
    le_trans (by norm_num [EPSILON]) (le_abs_self _)
  have hgK : |3 * (1 - 2 * ((10 ^ 15 : ℝ) / (2 * (10 ^ 15 + 1 / 10 ^ 3))))| < EPSILON := by
    rw [abs_of_pos (by norm_num)]
    norm_num [EPSILON]
  simp only [checkConsistency, consistencyFindingE, consistencyFindingNu,
    consistencyFindingMu, consistencyFindingK, calculateE_from_lambda_mu,
    calculateNu_from_lambda_mu, calculateMu_from_E_nu, calculateK_from_mu_nu,
    ok_of_eps_le hg1, ok_of_eps_le hg2, ok_of_eps_le hgMu, error_of_lt_eps hgK]

/-- C7 (amended): for every valid two-parameter input — exactly two of the
five elastic parameters supplied, with values such that both the chosen
branch's denominators AND the checker's own recomputation guards on the
resolved record (lambda + mu, 2(lambda + mu), 2(1 + nu), 3(1 - 2 nu)) clear
the 1e-12 epsilon — running the checker with the default tolerance on the
resolver's output yields the empty list: every recomputation reproduces the
stored value exactly. Without the checker-guard proviso the claim fails (the
checker can throw on valid resolver output). -/
theorem c7_resolver_self_consistent (p : MaterialParameters)
    (h : validTwoParameterInput p) :
    checkConsistency (calculateAllParameters p).parameters defaultTolerance =
      .ok [] := by
  rcases h with
    ⟨l, m, rho, rfl, hc⟩ | ⟨e, n, rho, rfl, hc⟩ | ⟨m, n, rho, rfl, hc⟩ |
    ⟨k, n, rho, rfl, hc⟩ | ⟨k, m, rho, rfl, hc⟩ | ⟨e, m, rho, rfl, hc⟩ |
    ⟨e, k, rho, rfl, hc⟩ | ⟨l, n, rho, rfl, hc⟩ | ⟨l, k, rho, rfl, hc⟩ |
    ⟨l, e, rho, rfl, hc⟩
  · exact c7_case_LM _ _ _ hc
  · exact c7_case_EN _ _ _ hc
  · exact c7_case_MN _ _ _ hc
  · exact c7_case_KN _ _ _ hc
  · exact c7_case_KM _ _ _ hc
  · exact c7_case_EM _ _ _ hc
  · exact c7_case_EK _ _ _ hc
  · exact c7_case_LN _ _ _ hc
  · exact c7_case_LK _ _ _ hc
  · exact c7_case_LE _ _ _ hc

/-- C7 witness: the record resolved from lambda = mu = 1 produces no
consistency findings. -/
theorem c7_witness :
    checkConsistency
      (calculateAllParameters ⟨some 1, some 1, none, none, none, none, none⟩).parameters
      defaultTolerance = .ok [] :=
  c7_resolver_self_consistent _ (Or.inl ⟨1, 1, none, rfl,
    le_trans (by norm_num [EPSILON]) (le_abs_self _),
    le_trans (by norm_num [EPSILON]) (le_abs_self _),
    le_trans (by norm_num [EPSILON]) (le_abs_self _),
    le_trans (by norm_num [EPSILON]) (le_abs_self _)⟩)

/-- C4: for every input with at least two of the five elastic parameters
supplied, `calculateAllParameters` executes exactly one pair-branch, namely
the body of the first pair in the fixed order (lambda,mu), (E,nu), (mu,nu),
(K,nu), (K,mu), (E,mu), (E,K), (lambda,nu), (lambda,K), (lambda,E) whose two
parameters are both present. In particular, with lambda, mu and nu all
supplied (and E, K unset), the (lambda, mu) branch wins over the later
(mu, nu) and (lambda, nu) branches: E and K are computed from the
(lambda, mu) identities and exactly those two derivations are recorded; and
with mu, E and nu all supplied, the (E, nu) branch wins over the later
(mu, nu) and (E, mu) branches. -/
theorem c4_branch_precedence :
    (∀ input : MaterialParameters, 2 ≤ countDefined (normalizeG input) →
      ∃ b, firstMatchingPair (normalizeG input) = some b ∧
        calculateAllParameters input = branchBody b (normalizeG input)) ∧
    (∀ l m n : ℝ, EPSILON ≤ |l + m| →
        calculateAllParameters ⟨some l, some m, none, none, some n, none, none⟩ =
          ⟨⟨some l, some m, some (m * (3 * l + 2 * m) / (l + m)),
              some (l + 2 / 3 * m), some n, none, none⟩,
            ["E = mu(3 lambda + 2 mu) / (lambda + mu)", "K = lambda + (2/3) mu"], []⟩) ∧
    (∀ e n m : ℝ, EPSILON ≤ |(1 + n) * (1 - 2 * n)| → EPSILON ≤ |3 * (1 - 2 * n)| →
        calculateAllParameters ⟨none, some m, some e, none, some n, none, none⟩ =
          ⟨⟨some (e * n / ((1 + n) * (1 - 2 * n))), some m, some e,
              some (e / (3 * (1 - 2 * n))), some n, none, none⟩,
            ["lambda = E nu / ((1 + nu)(1 - 2 nu))", "K = E / (3(1 - 2 nu))"], []⟩) := by
  refine ⟨?_, ?_, ?_⟩
  · intro input h2
    obtain ⟨b, hb, hd⟩ := dispatch_first_match (normalizeG input) h2
    refine ⟨b, hb, ?_⟩
    rw [calculateAllParameters]
    exact hd
  · intro l m n h
    simp only [calculateAllParameters, normalizeG, resolveDispatch, steps_lambda_mu,
      runSteps, getP, setP, Option.getD_some, Option.isSome_some, Option.isSome_none,
      List.filter, finishResult, calculateE_from_lambda_mu, calculateK_from_lambda_mu,
      ok_of_eps_le h]
    norm_num
  · intro e n m h1 h2
    simp only [calculateAllParameters, normalizeG, resolveDispatch, steps_E_nu,
      runSteps, getP, setP, Option.getD_some, Option.isSome_some, Option.isSome_none,
      List.filter, finishResult, calculateLambda_from_E_nu, calculateK_from_E_nu,
      ok_of_eps_le h1, ok_of_eps_le h2]
    norm_num

/-- C4 witness: for the over-specified record with lambda = mu = 1 and
nu = 1/4 the first matching pair is (lambda, mu) and the resolver runs
exactly that branch body; the two example records resolve via the
(lambda, mu), resp. (E, nu), identities. -/
theorem c4_witness :
    firstMatchingPair (normalizeG ⟨some 1, some 1, none, none, some (1 / 4), none, none⟩) =
      some PairBranch.LM ∧
    calculateAllParameters ⟨some 1, some 1, none, none, some (1 / 4), none, none⟩ =
      branchBody PairBranch.LM
        (normalizeG ⟨some 1, some 1, none, none, some (1 / 4), none, none⟩) ∧
    calculateAllParameters ⟨some 1, some 1, none, none, some (1 / 4), none, none⟩ =
      ⟨⟨some 1, some 1, some ((1 : ℝ) * (3 * 1 + 2 * 1) / (1 + 1)),
          some ((1 : ℝ) + 2 / 3 * 1), some (1 / 4), none, none⟩,
        ["E = mu(3 lambda + 2 mu) / (lambda + mu)", "K = lambda + (2/3) mu"], []⟩ ∧
    calculateAllParameters ⟨none, some 2, some 5, none, some (1 / 4), none, none⟩ =
      ⟨⟨some ((5 : ℝ) * (1 / 4) / ((1 + 1 / 4) * (1 - 2 * (1 / 4)))), some 2, some 5,
          some ((5 : ℝ) / (3 * (1 - 2 * (1 / 4)))), some (1 / 4), none, none⟩,
        ["lambda = E nu / ((1 + nu)(1 - 2 nu))", "K = E / (3(1 - 2 nu))"], []⟩ := by
  have h2 : 2 ≤ countDefined
      (normalizeG ⟨some 1, some 1, none, none, some (1 / 4), none, none⟩) := by
    norm_num [countDefined, normalizeG, List.filter]
  obtain ⟨b, hb, hd⟩ := c4_branch_precedence.1
    ⟨some 1, some 1, none, none, some (1 / 4), none, none⟩ h2
  have hfm : firstMatchingPair
      (normalizeG ⟨some 1, some 1, none, none, some (1 / 4), none, none⟩) =
      some PairBranch.LM := by
    simp [firstMatchingPair, pairOrder, pairMatches, normalizeG]
  have hbe : b = PairBranch.LM := Option.some.inj (hb.symm.trans hfm)
  subst hbe
  exact ⟨hfm, hd,
    c4_branch_precedence.2.1 1 1 (1 / 4)
      (le_trans (by norm_num [EPSILON]) (le_abs_self _)),
    c4_branch_precedence.2.2 5 (1 / 4) 2
      (le_trans (by norm_num [EPSILON]) (le_abs_self _))
      (le_trans (by norm_num [EPSILON]) (le_abs_self _))⟩

/-- C5: calculateE_from_lambda_mu signals the division-by-zero failure
precisely when the magnitude of lambda + mu is below 1e-12 and otherwise
returns mu(3 lambda + 2 mu)/(lambda + mu); when the failure arises inside
calculateAllParameters it is caught and converted into a textual warning,
that branch performs no further computation, and the supplied fields are
retained while the fields not yet derived remain unset. -/
theorem c5_divzero_guard_and_catch :
    (∀ l m : ℝ, |l + m| < EPSILON →
        calculateE_from_lambda_mu l m = .error "Division by zero: lambda + mu = 0") ∧
    (∀ l m : ℝ, EPSILON ≤ |l + m| →
        calculateE_from_lambda_mu l m = .ok ((m * (3 * l + 2 * m)) / (l + m))) ∧
    (∀ l m : ℝ, |l + m| < EPSILON →
        calculateAllParameters ⟨some l, some m, none, none, none, none, none⟩ =
          ⟨⟨some l, some m, none, none, none, none, none⟩, [],
            ["Calculation error: Division by zero: lambda + mu = 0"]⟩) := by
  refine ⟨?_, ?_, ?_⟩
  · intro l m h
    rw [calculateE_from_lambda_mu]
    exact error_of_lt_eps h
  · intro l m h
    rw [calculateE_from_lambda_mu]
    exact ok_of_eps_le h
  · intro l m h
    simp only [calculateAllParameters, normalizeG, resolveDispatch, runSteps,
      steps_lambda_mu, getP, Option.getD_some, Option.isSome_some, Option.isSome_none,
      List.filter, finishResult, calculateE_from_lambda_mu, error_of_lt_eps h]
    norm_num
    rfl

/-- C5 witness: lambda = -1e9, mu = 1e9 raises rather than returning a
number, and the resolver converts the failure into a warning while leaving
the derived fields unset. -/
theorem c5_witness :
    calculateE_from_lambda_mu (-(10 ^ 9)) (10 ^ 9) =
      .error "Division by zero: lambda + mu = 0" ∧
    calculateAllParameters ⟨some (-(10 ^ 9)), some (10 ^ 9), none, none, none, none, none⟩ =
      ⟨⟨some (-(10 ^ 9)), some (10 ^ 9), none, none, none, none, none⟩, [],
        ["Calculation error: Division by zero: lambda + mu = 0"]⟩ :=
  ⟨c5_divzero_guard_and_catch.1 _ _ (by norm_num [EPSILON]),
   c5_divzero_guard_and_catch.2.2 _ _ (by norm_num [EPSILON])⟩

end

end SmartLame
